import Mathlib

/-!
Verification development for the oref insulin-dosing core (Rust sources under
`src/Core/oref/src`).  Floating-point (`f64`) arithmetic is modelled by exact
rational arithmetic (`ℚ`); `i64` Unix-millisecond timestamps by `ℤ`; `u32`
fields by `ℕ`.  The transcendental exponential insulin curve is modelled over
`ℝ` (with `Real.exp`) where its analytic behaviour is at stake, and is kept as
an abstract function parameter inside the larger pipelines (whose claimed
properties hold for every instantiation of that parameter).

The `Profile` record, the `DetermineBasalResult` record and the `basal_lookup`
helper are declared in repository files that are not part of the provided
sources (only their uses are); they are modelled from the specification and
from their uses, and are marked as such.
-/

namespace Oref

/-- Rust `f64::round`: round half away from zero. -/
def rustRound (x : ℚ) : ℤ :=
  if 0 ≤ x then ⌊x + 1/2⌋ else -⌊-x + 1/2⌋

/-- Round half to even (banker's rounding), the tie-breaking rule used by
Rust's fixed-precision float *formatting* (`{:.n}`). -/
def rheInt (x : ℚ) : ℤ :=
  let f := ⌊x⌋
  let r := x - f
  if r < 1/2 then f
  else if 1/2 < r then f + 1
  else if f % 2 = 0 then f else f + 1

/-- `round_to_decimal` / `round_value` / `utils::round` (all three Rust
helpers are the same function): `(value * 10^d).round() / 10^d`. -/
def round_to_decimal (value : ℚ) (decimals : ℕ) : ℚ :=
  (rustRound (value * 10 ^ decimals) : ℚ) / 10 ^ decimals

/-- Rust `format` with `{:.0}`: nearest integer, ties to even, keeping the
sign of the value (Rust prints `-0` for a negative value rounding to zero). -/
def fmtF64_0 (x : ℚ) : String :=
  if x < 0 ∧ rheInt x = 0 then "-0" else toString (rheInt x)

/-- Left-pad a digit string with zeros to the given width. -/
def padZeros (s : String) (width : ℕ) : String :=
  String.mk (List.replicate (width - s.length) '0') ++ s

/-- Rust `format` with `{:.d}` for `d > 0`: fixed-point rendering of the
half-to-even rounding at `d` decimal places. -/
def fmtF64 (x : ℚ) (d : ℕ) : String :=
  let n : ℤ := rheInt (x * 10 ^ d)
  let sign : String := if x < 0 ∧ n ≤ 0 then "-" else if n < 0 then "-" else ""
  let a : ℕ := n.natAbs
  sign ++ toString (a / 10 ^ d) ++ "." ++ padZeros (toString (a % 10 ^ d)) d

/-- Minute of the UTC day of a Unix-millisecond timestamp
(chrono's `hour() * 60 + minute()`). -/
def minutesOfDay (ms : ℤ) : ℤ :=
  (ms.fdiv 60000) % 1440

/-- `f64 as i64` / `f64 as i32`: truncation toward zero. -/
def ratTrunc (x : ℚ) : ℤ :=
  if 0 ≤ x then ⌊x⌋ else ⌈x⌉

/-- Stable insertion of an element into a list ordered by an integer key:
the element goes after every existing element with key `≤` its own. -/
def insertByKey {α : Type} (key : α → ℤ) (a : α) : List α → List α
  | [] => [a]
  | b :: l => if key b ≤ key a then b :: insertByKey key a l else a :: b :: l

/-- Stable sort by an integer key (the semantics of Rust's stable
`sort_by_key`). -/
def sortByKey {α : Type} (key : α → ℤ) : List α → List α
  | [] => []
  | a :: l => insertByKey key a (sortByKey key l)

/-- Stable insertion into a list ordered by a rational key. -/
def insertByRat {α : Type} (key : α → ℚ) (a : α) : List α → List α
  | [] => [a]
  | b :: l => if key b ≤ key a then b :: insertByRat key a l else a :: b :: l

/-- Stable sort by a rational key (Rust `sort_by` with `partial_cmp`). -/
def sortByRat {α : Type} (key : α → ℚ) : List α → List α
  | [] => []
  | a :: l => insertByRat key a (sortByRat key l)

/-- The three insulin curves (`insulin::InsulinCurve`). -/
inductive InsulinCurve where
  | Bilinear
  | RapidActing
  | UltraRapid
  deriving DecidableEq, Repr

/-- `types::IOBContrib`: contribution of one dose to IOB and activity. -/
structure IOBContrib where
  iob_contrib : ℚ
  activity_contrib : ℚ
  deriving DecidableEq, Repr

/-- `IOBContrib::zero`. -/
def IOBContrib.zero : IOBContrib := ⟨0, 0⟩

/-- `insulin::calculate::BilinearCurve::calculate`, exactly as in the source
(the decimal coefficients are exact rationals). -/
def BilinearCurve_calculate (insulin mins_ago dia : ℚ) : IOBContrib :=
  let dia' := max dia 3
  let time_scalar := 3 / dia'
  let scaled_mins_ago := time_scalar * mins_ago
  let activity_peak := 2 / (dia' * 60)
  let slope_up := activity_peak / 75
  let slope_down := -activity_peak / (180 - 75)
  if scaled_mins_ago < 75 then
    let x1 := scaled_mins_ago / 5 + 1
    { iob_contrib := insulin * ((-1852/1000000) * x1 * x1 + (1852/1000000) * x1 + 1),
      activity_contrib := insulin * (slope_up * scaled_mins_ago) }
  else if scaled_mins_ago < 180 then
    let mins_past_peak := scaled_mins_ago - 75
    let x2 := (scaled_mins_ago - 75) / 5
    { iob_contrib := insulin * ((1323/1000000) * x2 * x2 + (-54233/1000000) * x2 + 555560/1000000),
      activity_contrib := insulin * (activity_peak + slope_down * mins_past_peak) }
  else IOBContrib.zero

/-- Abstract stand-in for `ExponentialCurve::calculate` inside the rational
pipelines: `(insulin, mins_ago, dia, peak) ↦ (iob, activity)`.  The
transcendental curve itself is modelled over `ℝ` separately; every pipeline
theorem below holds for an arbitrary instantiation of this parameter. -/
def ExpCurveFn : Type := ℚ → ℚ → ℚ → ℕ → IOBContrib

/-- `insulin::calculate::calculate_iob_contrib` (curve dispatch), with the
exponential leaf abstracted as `expc`. -/
def calculate_iob_contrib (expc : ExpCurveFn) (insulin mins_ago : ℚ)
    (curve : InsulinCurve) (dia : ℚ) (peak : ℕ) : IOBContrib :=
  if insulin ≤ 0 ∨ mins_ago < 0 then IOBContrib.zero
  else
    match curve with
    | InsulinCurve.Bilinear => BilinearCurve_calculate insulin mins_ago dia
    | InsulinCurve.RapidActing => expc insulin mins_ago dia peak
    | InsulinCurve.UltraRapid => expc insulin mins_ago dia peak

/-- ISF schedule entry (`types::ISFEntry`, fields as used by `profile/isf.rs`). -/
structure ISFEntry where
  offset : ℤ
  sensitivity : ℚ
  deriving DecidableEq, Repr

/-- ISF schedule (`types::ISFProfile`). -/
structure ISFProfile where
  sensitivities : List ISFEntry := []
  deriving DecidableEq, Repr

/-- Basal schedule entry, fields as used by `iob/history.rs`
(`e.i`, `e.minutes`, `e.rate`). -/
structure BasalEntry where
  i : ℕ
  minutes : ℤ
  rate : ℚ
  deriving DecidableEq, Repr

/-- Modelled from the spec: the `Profile` record itself is declared in a
repository file not included under `src/` (only its field uses are).  Fields
and units follow the specification's data-model table and the field accesses
visible in the provided sources.  Defaults are neutral zero values. -/
structure Profile where
  dia : ℚ := 0
  curve : InsulinCurve := InsulinCurve.Bilinear
  peak : ℕ := 75
  sens : ℚ := 0
  isf_profile : ISFProfile := {}
  carb_ratio : ℚ := 0
  current_basal : ℚ := 0
  basal_profile : List BasalEntry := []
  min_bg : ℚ := 0
  max_bg : ℚ := 0
  max_basal : ℚ := 0
  max_iob : ℚ := 0
  max_meal_absorption_time : ℚ := 6
  min_5m_carbimpact : ℚ := 0
  bolus_increment : ℚ := 0
  smb_delivery_ratio : ℚ := 0
  max_smb_basal_minutes : ℕ := 30
  max_uam_smb_basal_minutes : ℕ := 30
  enable_smb_always : Bool := false
  enable_smb_with_cob : Bool := false
  enable_smb_after_carbs : Bool := false
  enable_smb_with_temptarget : Bool := false
  enable_smb_high_bg : Bool := false
  enable_smb_high_bg_target : ℚ := 110
  allow_smb_with_high_temptarget : Bool := false
  a52_risk_enable : Bool := false
  temptarget_set : Bool := false
  exercise_mode : Bool := false
  high_temptarget_raises_sensitivity : Bool := false
  rewind_resets_autosens : Bool := false
  model : Option String := none
  deriving DecidableEq, Repr

/-- `types::Treatment` (the ISO-timestamp string fields are not modelled:
all dates in this development are given numerically, so `effective_date`
reduces to the `date` field). -/
structure Treatment where
  date : ℤ := 0
  insulin : Option ℚ := none
  carbs : Option ℚ := none
  rate : Option ℚ := none
  duration : Option ℚ := none
  event_type : Option String := none
  deriving DecidableEq, Repr

/-- `Treatment::effective_date` for numerically dated treatments. -/
def Treatment.effective_date (t : Treatment) : ℤ := t.date

/-- `types::GlucoseReading` (string metadata fields not modelled). -/
structure GlucoseReading where
  glucose : ℚ
  date : ℤ
  deriving DecidableEq, Repr

/-- `types::GlucoseStatus`. -/
structure GlucoseStatus where
  glucose : ℚ := 0
  delta : ℚ := 0
  short_avgdelta : ℚ := 0
  long_avgdelta : ℚ := 0
  date : ℤ := 0
  deriving DecidableEq, Repr

/-- `types::CurrentTemp`. -/
structure CurrentTemp where
  duration : ℚ := 0
  rate : ℚ := 0
  deriving DecidableEq, Repr

/-- `CurrentTemp::is_active`. -/
def CurrentTemp.is_active (t : CurrentTemp) : Bool := t.duration > 0

/-- `types::IOBData` (the always-`None` nested fields `iob_with_zero_temp`,
`last_bolus_time`, `last_temp` — populated only by the unembedded
`iob::calculate` driver — are not modelled). -/
structure IOBData where
  iob : ℚ := 0
  activity : ℚ := 0
  basal_iob : ℚ := 0
  bolus_iob : ℚ := 0
  net_basal_insulin : ℚ := 0
  bolus_insulin : ℚ := 0
  time : ℤ := 0
  deriving DecidableEq, Repr

/-- `types::MealData`. -/
structure MealData where
  carbs : ℚ := 0
  ns_carbs : ℚ := 0
  bw_carbs : ℚ := 0
  journal_carbs : ℚ := 0
  meal_cob : ℚ := 0
  current_deviation : ℚ := 0
  max_deviation : ℚ := 0
  min_deviation : ℚ := 0
  slope_from_max_deviation : ℚ := 0
  slope_from_min_deviation : ℚ := 0
  last_carb_time : ℤ := 0
  bw_found : Bool := false
  deriving DecidableEq, Repr

/-- `types::COBResult` (all-zero `Default`). -/
structure COBResult where
  meal_cob : ℚ := 0
  carbs_absorbed : ℚ := 0
  current_deviation : ℚ := 0
  max_deviation : ℚ := 0
  min_deviation : ℚ := 0
  slope_from_max : ℚ := 0
  slope_from_min : ℚ := 0
  deriving DecidableEq, Repr

/-- `cob::CarbAbsorptionResult`. -/
structure CarbAbsorptionResult where
  carbs_absorbed : ℚ := 0
  current_deviation : ℚ := 0
  max_deviation : ℚ := 0
  min_deviation : ℚ := 0
  slope_from_max_deviation : ℚ := 0
  slope_from_min_deviation : ℚ := 0
  all_deviations : List ℤ := []
  deriving DecidableEq, Repr

/-- `types::AutosensData`. -/
structure AutosensData where
  ratio : ℚ
  deriving DecidableEq, Repr

/-- `autosens::AutosensConfig`. -/
structure AutosensConfig where
  lookback : ℕ := 96
  retrospective : Bool := false
  autosens_min : ℚ := 7/10
  autosens_max : ℚ := 12/10
  deriving DecidableEq, Repr

/-- `types::TempTarget`. -/
structure TempTarget where
  created_at : ℤ
  duration : ℕ
  target_bottom : ℚ
  target_top : ℚ
  deriving DecidableEq, Repr

/-- Modelled from the spec: the `DetermineBasalResult` record is declared in
a repository file not included under `src/`.  Fields follow the
Recommendation record of the specification and the field assignments in
`determine_basal/algorithm.rs`. -/
structure DetermineBasalResult where
  rate : Option ℚ := none
  duration : Option ℕ := none
  units : Option ℚ := none
  reason : String := ""
  eventual_bg : ℚ := 0
  iob : ℚ := 0
  cob : ℚ := 0
  bg_mins_ago : Option ℚ := none
  target_bg : Option ℚ := none
  sensitivity_ratio : Option ℚ := none
  insulin_req : Option ℚ := none
  predicted_bg : Option (List ℚ) := none
  pred_bgs_iob : Option (List ℚ) := none
  pred_bgs_zt : Option (List ℚ) := none
  pred_bgs_uam : Option (List ℚ) := none
  pred_bgs_cob : Option (List ℚ) := none
  deriving DecidableEq, Repr

/-- Modelled from the spec: `DetermineBasalResult::error` (a success-shaped
result carrying only a diagnostic reason). -/
def DetermineBasalResult.error (reason : String) : DetermineBasalResult :=
  { reason := reason }

/-- Modelled from the spec: `DetermineBasalResult::temp_basal`. -/
def DetermineBasalResult.temp_basal (rate : ℚ) (duration : ℕ) (reason : String) :
    DetermineBasalResult :=
  { rate := some rate, duration := some duration, reason := reason }

/-- First matching schedule entry scan shared by the schedule lookups: the
first entry whose `[start, next-start)` window contains `now` wins; if no
window matches, the supplied default (the last entry) is kept.  `bound`
plays the role of "end of day" (1440) for the final entry. -/
def scheduleScan {α : Type} (start : α → ℤ) (value : α → ℚ)
    (now : ℤ) (dflt : ℚ) : List α → ℚ
  | [] => dflt
  | [e] => if start e ≤ now ∧ now < 1440 then value e else dflt
  | e :: e2 :: rest =>
    if start e ≤ now ∧ now < start e2 then value e
    else scheduleScan start value now dflt (e2 :: rest)

/-- `profile/isf.rs::isf_lookup_from_schedule`. -/
def isf_lookup_from_schedule (isf : ISFProfile) (timeMs : ℤ) : Option ℚ :=
  match isf.sensitivities with
  | [] => none
  | _ =>
    let now := minutesOfDay timeMs
    let sched := sortByKey (fun e => e.offset) isf.sensitivities
    match sched with
    | [] => none
    | e0 :: _ =>
      if e0.offset ≠ 0 then none
      else
        let dflt := ((sched.getLast?).map (fun e => e.sensitivity)).getD 0
        some (scheduleScan (fun e => e.offset) (fun e => e.sensitivity) now dflt sched)

/-- `profile/isf.rs::isf_lookup`. -/
def isf_lookup (p : Profile) (timeMs : ℤ) : ℚ :=
  (isf_lookup_from_schedule p.isf_profile timeMs).getD p.sens

/-- `iob/history.rs::lookup_basal_at_time` (its own per-module basal lookup,
keyed by the `i` index and bounded by the `minutes` fields). -/
def lookup_basal_at_time (p : Profile) (timeMs : ℤ) : ℚ :=
  match p.basal_profile with
  | [] => p.current_basal
  | _ =>
    let now := minutesOfDay timeMs
    let sched := sortByKey (fun e => (e.i : ℤ)) p.basal_profile
    let dflt := ((sched.getLast?).map (fun e => e.rate)).getD p.current_basal
    scheduleScan (fun e => e.minutes) (fun e => e.rate) now dflt sched

/-- Modelled from the spec: `basal_lookup` (imported by `autosens` and `cob`
from a profile module not included under `src/`).  Per the specification's
schedule-lookup contract: entries apply from their offset to the next
entry's offset; if the first entry's offset is not 0 the scalar
`current_basal` fallback is returned. -/
def basal_lookup (p : Profile) (timeMs : ℤ) : ℚ :=
  match p.basal_profile with
  | [] => p.current_basal
  | _ =>
    let now := minutesOfDay timeMs
    let sched := sortByKey (fun e => e.minutes) p.basal_profile
    match sched with
    | [] => p.current_basal
    | e0 :: _ =>
      if e0.minutes ≠ 0 then p.current_basal
      else
        let dflt := ((sched.getLast?).map (fun e => e.rate)).getD p.current_basal
        scheduleScan (fun e => e.minutes) (fun e => e.rate) now dflt sched

/-- `utils/round.rs::is_newer_medtronic` (substring match against the list
of newer pump model strings). -/
def strContainsSub (hay pat : String) : Bool := (hay.splitOn pat).length ≥ 2

/-- The newer Medtronic model strings from `utils/round.rs`. -/
def newerMedtronicModels : List String :=
  ["523", "723", "554", "754", "530G", "630G", "670G", "770G", "780G"]

/-- `utils/round.rs::is_newer_medtronic`. -/
def is_newer_medtronic (model : String) : Bool :=
  newerMedtronicModels.any (fun m => strContainsSub model m)

/-- `utils/round.rs::get_pump_increment`. -/
def get_pump_increment (p : Profile) : ℚ :=
  match p.model with
  | some m => if is_newer_medtronic m then 1/40 else 1/20
  | none => 1/20

/-- `utils/round.rs::round_to_increment`. -/
def round_to_increment (rate increment : ℚ) : ℚ :=
  if rate > 10 then (rustRound (rate * 10) : ℚ) / 10
  else (rustRound (rate / increment) : ℚ) * increment

/-- `utils/round.rs::round_basal`. -/
def round_basal (rate : ℚ) (p : Profile) : ℚ :=
  round_to_increment rate (get_pump_increment p)

/-- `determine_basal/smb.rs::should_enable_smb`. -/
def should_enable_smb (p : Profile) (micro_bolus_allowed : Bool)
    (meal_data : MealData) (bg target_bg : ℚ) : Bool :=
  if ¬micro_bolus_allowed then false
  else if ¬p.allow_smb_with_high_temptarget ∧ p.temptarget_set ∧ target_bg > 100 then false
  else if meal_data.bw_found ∧ ¬p.a52_risk_enable then false
  else if p.enable_smb_always then true
  else if p.enable_smb_with_cob ∧ meal_data.meal_cob > 0 then true
  else if p.enable_smb_after_carbs ∧ meal_data.carbs > 0 then true
  else if p.enable_smb_with_temptarget ∧ p.temptarget_set ∧ target_bg < 100 then true
  else if p.enable_smb_high_bg ∧ bg ≥ p.enable_smb_high_bg_target then true
  else false

/-- `determine_basal/smb.rs::calculate_max_smb`. -/
def calculate_max_smb (p : Profile) (_iob _cob basal : ℚ) : ℚ :=
  let max_minutes : ℕ :=
    if _cob > 0 then p.max_smb_basal_minutes else p.max_uam_smb_basal_minutes
  (max_minutes : ℚ) / 60 * basal

/-- `determine_basal/smb.rs::calculate_smb`. -/
def calculate_smb (p : Profile) (insulin_req iob cob basal : ℚ) : Option ℚ :=
  if insulin_req ≤ 0 then none
  else
    let max_smb := calculate_max_smb p iob cob basal
    let smb_ratio := min p.smb_delivery_ratio 1
    let smb := min (insulin_req * smb_ratio) max_smb
    let smb' := (⌊smb / p.bolus_increment⌋ : ℚ) * p.bolus_increment
    if smb' ≥ p.bolus_increment then some smb' else none

/-- `determine_basal/predictions.rs::predict_glucose`, with `f64::exp`
abstracted as `expQ`. -/
def predict_glucose (expQ : ℚ → ℚ) (gs : GlucoseStatus) (iob_data : IOBData)
    (p : Profile) : List ℚ :=
  (List.range 48).map (fun i =>
    let minutes : ℚ := (i : ℚ) * 5
    let iob_factor := expQ (-minutes / 60)
    let predicted_iob_effect := iob_data.iob * iob_factor * p.sens
    let delta_factor := expQ (-minutes / 30)
    let predicted_delta_effect := gs.delta * (minutes / 5) * delta_factor
    max (gs.glucose + predicted_delta_effect - predicted_iob_effect) 39)

/-- `determine_basal/predictions.rs::calculate_eventual_bg`. -/
def calculate_eventual_bg (gs : GlucoseStatus) (iob_data : IOBData)
    (p : Profile) : ℚ :=
  max (gs.glucose + gs.delta * 12 - iob_data.iob * p.sens) 0

/-- `determine_basal/predictions.rs::calculate_bgi`. -/
def calculate_bgi (activity sens : ℚ) : ℚ :=
  (rustRound (-activity * sens * 5 * 100) : ℚ) / 100

/-- `determine_basal/algorithm.rs::generate_iob_only_predictions`. -/
def generate_iob_only_predictions (expQ : ℚ → ℚ) (gs : GlucoseStatus)
    (iob_data : IOBData) (p : Profile) : List ℚ :=
  (List.range 48).map (fun i =>
    let minutes : ℚ := (i : ℚ) * 5
    let iob_factor := expQ (-minutes / 60)
    let predicted_iob_effect := iob_data.iob * iob_factor * p.sens
    max (gs.glucose - predicted_iob_effect) 39)

/-- `determine_basal/algorithm.rs::generate_zero_temp_predictions`. -/
def generate_zero_temp_predictions (expQ : ℚ → ℚ) (gs : GlucoseStatus)
    (iob_data : IOBData) (p : Profile) : List ℚ :=
  (List.range 48).map (fun i =>
    let minutes : ℚ := (i : ℚ) * 5
    let iob_factor := expQ (-minutes / 60)
    let predicted_iob_effect := iob_data.iob * iob_factor * p.sens
    let delta_factor := expQ (-minutes / 45)
    let delta_effect := max gs.delta 0 * (minutes / 5) * delta_factor
    let basal_rise := p.current_basal / 60 * minutes * p.sens * (1/2)
    max (gs.glucose + delta_effect + basal_rise - predicted_iob_effect) 39)

/-- `determine_basal/algorithm.rs::generate_uam_predictions`. -/
def generate_uam_predictions (expQ : ℚ → ℚ) (gs : GlucoseStatus)
    (iob_data : IOBData) (p : Profile) : List ℚ :=
  (List.range 48).map (fun i =>
    let minutes : ℚ := (i : ℚ) * 5
    let iob_factor := expQ (-minutes / 60)
    let predicted_iob_effect := iob_data.iob * iob_factor * p.sens
    let delta_factor := expQ (-minutes / 60)
    let delta_effect := gs.delta * (minutes / 5) * delta_factor
    max (gs.glucose + delta_effect - predicted_iob_effect) 39)

/-- `determine_basal/algorithm.rs::generate_cob_predictions` (the carb
absorption bell also goes through `expQ`). -/
def generate_cob_predictions (expQ : ℚ → ℚ) (gs : GlucoseStatus)
    (iob_data : IOBData) (meal_data : MealData) (p : Profile) : List ℚ :=
  let carb_ratio := max p.carb_ratio 1
  let cob := meal_data.meal_cob
  (List.range 48).map (fun i =>
    let minutes : ℚ := (i : ℚ) * 5
    let iob_factor := expQ (-minutes / 60)
    let predicted_iob_effect := iob_data.iob * iob_factor * p.sens
    let delta_factor := expQ (-minutes / 30)
    let delta_effect := gs.delta * (minutes / 5) * delta_factor
    let carb_absorption :=
      if cob > 0 then
        let absorption_peak := expQ (-(((minutes - 45) / 30) ^ 2))
        cob / carb_ratio * p.sens * (1/2) * absorption_peak
      else 0
    max (gs.glucose + delta_effect + carb_absorption - predicted_iob_effect) 39)

/-- `determine_basal/algorithm.rs::determine_basal` (the whole controller;
`current_time` is always supplied, as `now`). -/
def determine_basal (expQ : ℚ → ℚ) (gs : GlucoseStatus)
    (current_temp : CurrentTemp) (iob_data : IOBData) (p : Profile)
    (autosens_data : AutosensData) (meal_data : MealData)
    (micro_bolus_allowed : Bool) (now : ℤ) : DetermineBasalResult :=
  if p.current_basal ≤ 0 then
    DetermineBasalResult.error "Could not get current basal rate"
  else
    let bg := gs.glucose
    let target_bg := p.min_bg
    let sens := p.sens
    let basal := round_basal p.current_basal p
    let bg_mins_ago := ((now - gs.date : ℤ) : ℚ) / 60000
    let pred_bgs := predict_glucose expQ gs iob_data p
    let pred_bgs_iob := generate_iob_only_predictions expQ gs iob_data p
    let pred_bgs_zt := generate_zero_temp_predictions expQ gs iob_data p
    let pred_bgs_uam := generate_uam_predictions expQ gs iob_data p
    let pred_bgs_cob := generate_cob_predictions expQ gs iob_data meal_data p
    if bg < 80 then
      let reason := "BG " ++ fmtF64_0 bg ++ " < 80, temp zero"
      { DetermineBasalResult.temp_basal 0 30 reason with
        cob := meal_data.meal_cob
        iob := iob_data.iob
        eventual_bg := bg
        bg_mins_ago := some bg_mins_ago
        target_bg := some target_bg
        predicted_bg := some pred_bgs
        pred_bgs_iob := some pred_bgs_iob
        pred_bgs_zt := some pred_bgs_zt
        pred_bgs_uam := some pred_bgs_uam
        pred_bgs_cob := some pred_bgs_cob }
    else
      let eventual_bg := calculate_eventual_bg gs iob_data p
      let insulin_req := (eventual_bg - target_bg) / sens
      let base : DetermineBasalResult :=
        { cob := meal_data.meal_cob
          iob := iob_data.iob
          eventual_bg := eventual_bg
          bg_mins_ago := some bg_mins_ago
          target_bg := some target_bg
          sensitivity_ratio := some autosens_data.ratio
          predicted_bg := some pred_bgs
          pred_bgs_iob := some pred_bgs_iob
          pred_bgs_zt := some pred_bgs_zt
          pred_bgs_uam := some pred_bgs_uam
          pred_bgs_cob := some pred_bgs_cob
          insulin_req := some insulin_req }
      if eventual_bg ≥ p.min_bg ∧ eventual_bg ≤ p.max_bg then
        if current_temp.is_active ∧ current_temp.rate > basal then
          { base with
            rate := some basal
            duration := some 30
            reason := "Eventual BG " ++ fmtF64_0 eventual_bg ++ " in range (" ++
              fmtF64_0 p.min_bg ++ "-" ++ fmtF64_0 p.max_bg ++
              "), canceling high temp" }
        else
          { base with
            reason := "Eventual BG " ++ fmtF64_0 eventual_bg ++ " in range (" ++
              fmtF64_0 p.min_bg ++ "-" ++ fmtF64_0 p.max_bg ++
              "), no action needed" }
      else if eventual_bg > p.max_bg then
        let needed_rate := basal + insulin_req / (1/2)
        let needed_rate := min (max needed_rate 0) p.max_basal
        let needed_rate := round_basal needed_rate p
        let units :=
          if micro_bolus_allowed ∧ insulin_req > 0 then
            calculate_smb p insulin_req iob_data.iob meal_data.meal_cob basal
          else none
        { base with
          units := units
          rate := some needed_rate
          duration := some 30
          reason := "Eventual BG " ++ fmtF64_0 eventual_bg ++ " > " ++
            fmtF64_0 p.max_bg ++ ", insulin required " ++ fmtF64 insulin_req 2 ++
            "U, setting temp " ++ fmtF64 needed_rate 2 ++ "U/hr" }
      else if eventual_bg < p.min_bg then
        let needed_rate := basal + insulin_req / (1/2)
        let needed_rate := max needed_rate 0
        let needed_rate := round_basal needed_rate p
        { base with
          rate := some needed_rate
          duration := some 30
          reason := "Eventual BG " ++ fmtF64_0 eventual_bg ++ " < " ++
            fmtF64_0 p.min_bg ++ ", reducing to " ++ fmtF64 needed_rate 2 ++
            "U/hr" }
      else { base with reason := "No action needed" }

/-- Modelled from the spec: `Profile::effective_dia` (declared in a file not
under `src/`).  The specification's IOB normalization discards events older
than `dia`, so the effective DIA is the profile's `dia`. -/
def effective_dia (p : Profile) : ℚ := p.dia

/-- Modelled from the spec: `Profile::effective_peak_time` (declared in a
file not under `src/`): the profile's configured peak activity time. -/
def effective_peak_time (p : Profile) : ℕ := p.peak

/-- The 5-minute chunk loop of `iob/history.rs::find_insulin_treatments` for
one temp-basal event: iterate `chunk` over `0..chunks`, breaking at the
first chunk whose start is in the future, and pushing a virtual treatment
whenever the chunk's net insulin is above the 0.0001 U noise floor. -/
def temp_basal_chunks (net_rate duration : ℚ) (event_date now : ℤ) :
    List Treatment :=
  let chunks : ℤ := ⌈duration / 5⌉
  ((List.range chunks.toNat).takeWhile
      (fun (chunk : ℕ) => decide (event_date + (chunk : ℤ) * 300000 ≤ now))).filterMap
    (fun (chunk : ℕ) =>
      let chunk_start := event_date + (chunk : ℤ) * 300000
      let chunk_duration : ℚ :=
        if (chunk : ℤ) = chunks - 1 then duration - (chunk : ℚ) * 5 else 5
      let chunk_insulin := net_rate * chunk_duration / 60
      if |chunk_insulin| > 1/10000 then
        some { date := chunk_start, insulin := some chunk_insulin }
      else none)

/-- `iob/history.rs::find_insulin_treatments`. -/
def find_insulin_treatments (p : Profile) (history : List Treatment)
    (clock : ℤ) (zero_temp_duration : ℤ) : List Treatment :=
  let now_millis := clock
  let dia_ago := now_millis - ratTrunc (effective_dia p * 3600000)
  let treatments := history.flatMap (fun event =>
    if event.effective_date < dia_ago ∨ event.effective_date > now_millis then []
    else
      (match event.insulin with
       | some ins =>
         if ins > 0 then [{ date := event.effective_date, insulin := some ins }]
         else []
       | none => []) ++
      (match event.rate, event.duration with
       | some rate, some dur =>
         if dur > 0 then
           let scheduled_basal := lookup_basal_at_time p event.effective_date
           temp_basal_chunks (rate - scheduled_basal) dur event.effective_date
             now_millis
         else []
       | _, _ => []))
  let zero_chunks : List Treatment :=
    if zero_temp_duration > 0 then
      (List.range (zero_temp_duration / 5).toNat).map (fun (chunk : ℕ) =>
        { date := now_millis + (chunk : ℤ) * 300000,
          insulin := some (-p.current_basal * 5 / 60) })
    else []
  sortByKey Treatment.effective_date (treatments ++ zero_chunks)

/-- One treatment's update inside `iob/total.rs::calculate_total_iob`. -/
def totalIOBStep (expc : ExpCurveFn) (p : Profile) (now_millis dia_ago : ℤ)
    (acc : IOBData) (treatment : Treatment) : IOBData :=
  let treatment_date := treatment.effective_date
  if treatment_date > now_millis ∨ treatment_date < dia_ago then acc
  else
    match treatment.insulin with
    | none => acc
    | some insulin =>
      if |insulin| < 1/10000 then acc
      else
        let mins_ago := ((now_millis - treatment_date : ℤ) : ℚ) / 60000
        let contrib := calculate_iob_contrib expc |insulin| mins_ago p.curve
          (effective_dia p) (effective_peak_time p)
        let sign : ℚ := if insulin < 0 then -1 else 1
        let iob_contrib := contrib.iob_contrib * sign
        let activity_contrib := contrib.activity_contrib * sign
        let acc := { acc with
          iob := acc.iob + iob_contrib
          activity := acc.activity + activity_contrib }
        if |insulin| < 1/10 then
          { acc with
            basal_iob := acc.basal_iob + iob_contrib
            net_basal_insulin := acc.net_basal_insulin + insulin }
        else
          { acc with
            bolus_iob := acc.bolus_iob + iob_contrib
            bolus_insulin := acc.bolus_insulin + insulin }

/-- `iob/total.rs::calculate_total_iob`. -/
def calculate_total_iob (expc : ExpCurveFn) (p : Profile)
    (treatments : List Treatment) (time : ℤ) : IOBData :=
  let dia_ago := time - ratTrunc (effective_dia p * 3600000)
  treatments.foldl (totalIOBStep expc p time dia_ago) { time := time }

/-- `cob::BucketedGlucose`. -/
structure BucketedGlucose where
  date : ℤ
  glucose : ℚ
  deriving DecidableEq, Repr

/-- The backward interpolation `while` loop of
`cob::bucket_glucose_data` (fuel-indexed; the fuel bound strictly dominates
the number of 5-minute steps in `remaining`). -/
def interpLoop : ℕ → ℚ → ℤ → ℚ → ℚ → List BucketedGlucose → List BucketedGlucose
  | 0, _, _, _, _, acc => acc
  | fuel + 1, remaining, interp_time, last_bg, gap_delta, acc =>
    if remaining > 5 then
      let interp_time' := interp_time - 300000
      let interp_bg := last_bg + 5 / remaining * gap_delta
      interpLoop fuel (remaining - 5) interp_time' interp_bg gap_delta
        (acc ++ [{ date := interp_time', glucose := (rustRound interp_bg : ℚ) }])
    else acc

/-- Replace the last bucket's glucose by the mean with the new reading
(Rust `bucketed.last_mut()` branch; no-op on an empty list). -/
def mergeLastBucket (acc : List BucketedGlucose) (g : ℚ) : List BucketedGlucose :=
  match acc.getLast? with
  | some last => acc.dropLast ++ [{ last with glucose := (last.glucose + g) / 2 }]
  | none => acc

/-- The main walk of `cob::bucket_glucose_data` over the tail of the glucose
series, carrying (`last_bg_time`, `last_bg`, `found_pre_meal`). -/
def bucketLoop (meal_millis : ℤ) (maxH : ℚ) :
    List GlucoseReading → List BucketedGlucose → ℤ → ℚ → Bool → List BucketedGlucose
  | [], acc, _, _, _ => acc
  | r :: rest, acc, last_time, last_bg, found_pre =>
    if r.glucose < 39 then bucketLoop meal_millis maxH rest acc last_time last_bg found_pre
    else
      let hours_after := ((r.date - meal_millis : ℤ) : ℚ) / 3600000
      if hours_after > maxH ∨ found_pre then
        bucketLoop meal_millis maxH rest acc last_time last_bg found_pre
      else
        let found_pre' := found_pre || decide (hours_after < 0)
        let elapsed := ((r.date - last_time : ℤ) : ℚ) / 60000
        if |elapsed| > 8 then
          let remaining := min |elapsed| 240
          let acc' := interpLoop (⌈remaining / 5⌉.toNat + 1) remaining last_time
            last_bg (r.glucose - last_bg) acc
          bucketLoop meal_millis maxH rest acc' r.date r.glucose found_pre'
        else if |elapsed| > 2 then
          bucketLoop meal_millis maxH rest (acc ++ [{ date := r.date, glucose := r.glucose }])
            r.date r.glucose found_pre'
        else
          bucketLoop meal_millis maxH rest (mergeLastBucket acc r.glucose)
            r.date r.glucose found_pre'

/-- `cob::bucket_glucose_data`. -/
def bucket_glucose_data (glucose_data : List GlucoseReading) (meal_millis : ℤ)
    (max_absorption_hours : ℚ) : List BucketedGlucose :=
  match glucose_data with
  | [] => []
  | first :: rest =>
    let acc0 : List BucketedGlucose :=
      if first.glucose ≥ 39 then [{ date := first.date, glucose := first.glucose }] else []
    bucketLoop meal_millis max_absorption_hours rest acc0 first.date first.glucose false

/-- `cob::find_meal_time` (Rust `max_by_key` keeps the last of equal
maxima). -/
def find_meal_time (treatments : List Treatment) (clock : ℤ) (maxH : ℚ) :
    Option ℤ :=
  let window_start := clock - ratTrunc (maxH * 3600 * 1000)
  (treatments.filter (fun t =>
      decide (window_start ≤ t.effective_date ∧ t.effective_date ≤ clock ∧
        1 ≤ t.carbs.getD 0))).foldl
    (fun acc t =>
      match acc with
      | none => some t.effective_date
      | some m => if m ≤ t.effective_date then some t.effective_date else some m)
    none

/-- `cob::calculate_total_carbs`. -/
def calculate_total_carbs (treatments : List Treatment) (meal_millis clock : ℤ) : ℚ :=
  ((treatments.filter (fun t =>
      decide (meal_millis ≤ t.effective_date ∧ t.effective_date ≤ clock))).filterMap
    (fun t => t.carbs)).foldr (fun c acc => if 1 ≤ c then c + acc else acc) 0

/-- The shared loop body of `cob::calculate_iob_at_time` and
`autosens::calculate_iob_at_time` (their per-treatment code is identical):
skip future treatments, treatments older than DIA, and treatments whose
insulin is not strictly positive; otherwise accumulate the curve
contribution into the `(iob, activity)` pair. -/
def iobAtTimeStep (expc : ExpCurveFn) (p : Profile)
    (time_millis dia_millis : ℤ) (acc : ℚ × ℚ) (t : Treatment) : ℚ × ℚ :=
  let treatment_time := t.effective_date
  if treatment_time > time_millis ∨ time_millis - treatment_time > dia_millis then acc
  else
    let insulin := t.insulin.getD 0
    if insulin ≤ 0 then acc
    else
      let minutes_ago := ((time_millis - treatment_time : ℤ) : ℚ) / 60000
      let contrib := calculate_iob_contrib expc insulin minutes_ago p.curve p.dia p.peak
      (acc.1 + contrib.iob_contrib, acc.2 + contrib.activity_contrib)

/-- `cob::calculate_iob_at_time` (sums only strictly-positive-insulin
treatments; fields `basal_iob := 0`, `bolus_iob := iob` as in the source). -/
def cob_calculate_iob_at_time (expc : ExpCurveFn) (p : Profile)
    (treatments : List Treatment) (time_millis : ℤ) : IOBData :=
  let dia_millis := ratTrunc (p.dia * 3600000)
  let sums := treatments.foldl (iobAtTimeStep expc p time_millis dia_millis) (0, 0)
  { iob := sums.1, activity := sums.2, basal_iob := 0, bolus_iob := sums.1,
    time := time_millis }

/-- Per-iteration state of `cob::detect_carb_absorption_internal`. -/
structure CobState where
  carbs_absorbed : ℚ := 0
  current_deviation : ℚ := 0
  max_deviation : ℚ := 0
  min_deviation : ℚ := 999
  slope_from_max_deviation : ℚ := 0
  slope_from_min_deviation : ℚ := 999
  all_deviations : List ℤ := []
  deriving DecidableEq, Repr

/-- Body of the triplet loop of `cob::detect_carb_absorption_internal`
(`i` is the running index, for the `i == 0` special case). -/
def cobStep (expc : ExpCurveFn) (p : Profile) (treatments : List Treatment)
    (meal_millis ci_millis : ℤ) (i : ℕ) (st : CobState)
    (b0 b1 b3 : BucketedGlucose) : CobState :=
  let bg_time := b0.date
  let bg := b0.glucose
  if bg < 39 ∨ b3.glucose < 39 then st
  else
    let avg_delta := (bg - b3.glucose) / 3
    let delta := bg - b1.glucose
    let sens := isf_lookup p bg_time
    let iob := cob_calculate_iob_at_time expc p treatments bg_time
    let bgi := round_to_decimal (-iob.activity * sens * 5) 2
    let deviation := round_to_decimal (delta - bgi) 2
    let st :=
      if i = 0 then
        let cd := round_to_decimal (avg_delta - bgi) 3
        { st with
          current_deviation := cd
          all_deviations :=
            if ci_millis > bg_time then st.all_deviations ++ [rustRound cd]
            else st.all_deviations }
      else if ci_millis > bg_time then
        let avg_deviation := round_to_decimal (avg_delta - bgi) 3
        let deviation_slope :=
          (avg_deviation - st.current_deviation) / ((bg_time - ci_millis : ℤ) : ℚ)
            * 1000 * 60 * 5
        let st :=
          if avg_deviation > st.max_deviation then
            { st with
              slope_from_max_deviation := min deviation_slope 0
              max_deviation := avg_deviation }
          else st
        let st :=
          if avg_deviation < st.min_deviation then
            { st with
              slope_from_min_deviation := max deviation_slope 0
              min_deviation := avg_deviation }
          else st
        { st with all_deviations := st.all_deviations ++ [rustRound avg_deviation] }
      else st
    if bg_time > meal_millis then
      let ci := max (max deviation (st.current_deviation / 2)) p.min_5m_carbimpact
      { st with carbs_absorbed := st.carbs_absorbed + ci * p.carb_ratio / sens }
    else st

/-- The triplet loop itself: processes `(b[i], b[i+1], b[i+3])` for each
`i` in `0..(len-3)`. -/
def cobLoop (expc : ExpCurveFn) (p : Profile) (treatments : List Treatment)
    (meal_millis ci_millis : ℤ) : ℕ → CobState → List BucketedGlucose → CobState
  | i, st, b0 :: b1 :: b2 :: b3 :: rest =>
    cobLoop expc p treatments meal_millis ci_millis (i + 1)
      (cobStep expc p treatments meal_millis ci_millis i st b0 b1 b3)
      (b1 :: b2 :: b3 :: rest)
  | _, st, _ => st

/-- `cob::detect_carb_absorption_internal`. -/
def detect_carb_absorption_internal (expc : ExpCurveFn) (p : Profile)
    (glucose_data : List GlucoseReading) (treatments : List Treatment)
    (meal_millis ci_millis : ℤ) : CarbAbsorptionResult :=
  match glucose_data with
  | [] => {}
  | _ =>
    let bucketed := bucket_glucose_data glucose_data meal_millis
      p.max_meal_absorption_time
    if bucketed.length < 4 then {}
    else
      let st := cobLoop expc p treatments meal_millis ci_millis 0 {} bucketed
      { carbs_absorbed := st.carbs_absorbed
        current_deviation := st.current_deviation
        max_deviation := st.max_deviation
        min_deviation := st.min_deviation
        slope_from_max_deviation := st.slope_from_max_deviation
        slope_from_min_deviation := st.slope_from_min_deviation
        all_deviations := st.all_deviations }

/-- `cob::calculate`. -/
def cob_calculate (expc : ExpCurveFn) (p : Profile)
    (glucose_data : List GlucoseReading) (treatments : List Treatment)
    (clock : ℤ) : COBResult :=
  match find_meal_time treatments clock p.max_meal_absorption_time with
  | none => {}
  | some meal_millis =>
    let absorption := detect_carb_absorption_internal expc p glucose_data
      treatments meal_millis clock
    let total_carbs := calculate_total_carbs treatments meal_millis clock
    let meal_cob := max (total_carbs - absorption.carbs_absorbed) 0
    { meal_cob := meal_cob
      carbs_absorbed := absorption.carbs_absorbed
      current_deviation := absorption.current_deviation
      max_deviation := absorption.max_deviation
      min_deviation := absorption.min_deviation
      slope_from_max := absorption.slope_from_max_deviation
      slope_from_min := absorption.slope_from_min_deviation }

/-- `autosens::BucketedGlucose` (carries an always-zero `meal_carbs`). -/
structure ABucket where
  date : ℤ
  glucose : ℚ
  meal_carbs : ℚ
  deriving DecidableEq, Repr

/-- Merge the new reading into the last autosens bucket by mean. -/
def mergeLastABucket (acc : List ABucket) (g : ℚ) : List ABucket :=
  match acc.getLast? with
  | some last => acc.dropLast ++ [{ last with glucose := (last.glucose + g) / 2 }]
  | none => acc

/-- The `i ≥ 1` part of the walk in
`autosens::bucket_glucose_data_for_autosens`; `prev` is the previous element
of the sorted list (by index, whether or not it produced a bucket). -/
def aBucketLoop (last_site_millis : ℤ) :
    GlucoseReading → List GlucoseReading → List ABucket → List ABucket
  | _, [], acc => acc
  | prev, r :: rest, acc =>
    if r.glucose < 39 then aBucketLoop last_site_millis r rest acc
    else if r.date < last_site_millis then aBucketLoop last_site_millis r rest acc
    else if prev.glucose < 39 then aBucketLoop last_site_millis r rest acc
    else
      let elapsed := ((r.date - prev.date : ℤ) : ℚ) / 60000
      if |elapsed| > 2 then
        aBucketLoop last_site_millis r rest
          (acc ++ [{ date := r.date, glucose := r.glucose, meal_carbs := 0 }])
      else aBucketLoop last_site_millis r rest (mergeLastABucket acc r.glucose)

/-- `autosens::bucket_glucose_data_for_autosens`. -/
def bucket_glucose_data_for_autosens (glucose_data : List GlucoseReading)
    (last_site_millis : ℤ) : List ABucket :=
  match glucose_data with
  | [] => []
  | _ =>
    let sorted := sortByKey (fun g => g.date) glucose_data
    match sorted with
    | [] => []
    | s0 :: rest =>
      let acc0 : List ABucket :=
        if s0.glucose < 39 ∨ s0.date < last_site_millis then []
        else [{ date := s0.date, glucose := s0.glucose, meal_carbs := 0 }]
      aBucketLoop last_site_millis s0 rest acc0

/-- `autosens::find_last_rewind`. -/
def find_last_rewind (treatments : List Treatment) : Option ℤ :=
  (treatments.filter (fun t => t.event_type = some "Rewind")).foldl
    (fun acc t =>
      match acc with
      | none => some t.effective_date
      | some m => if m ≤ t.effective_date then some t.effective_date else some m)
    none

/-- `autosens::find_meal_treatments`. -/
def find_meal_treatments (treatments : List Treatment)
    (bucketed_data : List ABucket) : List (ℤ × ℚ) :=
  match bucketed_data with
  | [] => []
  | _ =>
    let oldest_bg := ((bucketed_data.head?).map (fun b => b.date)).getD 0
    let meals := (treatments.filter (fun t =>
        decide (1 ≤ t.carbs.getD 0) && decide (oldest_bg ≤ t.effective_date))).map
      (fun t => (t.effective_date, t.carbs.getD 0))
    sortByKey (fun m => m.1) meals

/-- `autosens::DeviationType`. -/
inductive DeviationType where
  | NonMeal
  | CarbAbsorption
  | Uam
  deriving DecidableEq, Repr

/-- `autosens::get_active_temp_target` (scan of the temp-target list sorted
by descending creation time). -/
def scanTempTargets (time_millis : ℤ) : List TempTarget → Option ℚ
  | [] => none
  | tt :: rest =>
    let start := tt.created_at
    let expires := start + (tt.duration : ℤ) * 60 * 1000
    if tt.duration = 0 ∧ time_millis ≥ start then none
    else if time_millis ≥ start ∧ time_millis < expires then
      some ((tt.target_top + tt.target_bottom) / 2)
    else scanTempTargets time_millis rest

/-- `autosens::get_active_temp_target`. -/
def get_active_temp_target (temp_targets : List TempTarget)
    (time_millis : ℤ) : Option ℚ :=
  scanTempTargets time_millis (sortByKey (fun tt => -tt.created_at) temp_targets)

/-- `autosens::calculate_iob_at_time` (same strictly-positive-insulin
filter as the COB variant; result as an `(iob, activity)` pair, matching
the source's `IobCalc`). -/
def autosens_calculate_iob_at_time (expc : ExpCurveFn) (p : Profile)
    (treatments : List Treatment) (time_millis : ℤ) : ℚ × ℚ :=
  let dia_millis := ratTrunc (p.dia * 3600 * 1000)
  treatments.foldl (iobAtTimeStep expc p time_millis dia_millis) (0, 0)

/-- The meal-stack popping `while` of `autosens::calculate_deviations`:
pop meals from the *end* of the vector while they are older than the
current bucket. -/
def popMeals : ℕ → List (ℤ × ℚ) → ℤ → ℚ → List (ℤ × ℚ) × ℚ
  | 0, stack, _, acc => (stack, acc)
  | fuel + 1, stack, bg_time, acc =>
    match stack.getLast? with
    | none => (stack, acc)
    | some (meal_time, carbs) =>
      if meal_time < bg_time then popMeals fuel stack.dropLast bg_time (acc + carbs)
      else (stack, acc)

/-- Running state of `autosens::calculate_deviations`. -/
structure ASState where
  deviations : List ℚ := []
  meal_cob : ℚ := 0
  meal_carbs : ℚ := 0
  absorbing : Bool := false
  uam : Bool := false
  meal_start_counter : ℕ := 999
  current_type : DeviationType := DeviationType.NonMeal
  meals_stack : List (ℤ × ℚ) := []
  deriving DecidableEq, Repr

/-- Body of the `i ≥ 3` loop of `autosens::calculate_deviations`
(`b0 = b[i-3]`, `b2 = b[i-1]`, `b3 = b[i]`). -/
def asStep (expc : ExpCurveFn) (p : Profile) (treatments : List Treatment)
    (temp_targets : List TempTarget) (cfg : AutosensConfig) (st : ASState)
    (b0 b2 b3 : ABucket) : ASState :=
  let bg := b3.glucose
  let last_bg := b2.glucose
  let old_bg := b0.glucose
  if bg < 40 ∨ old_bg < 40 ∨ last_bg < 40 then st
  else
    let bg_time := b3.date
    let _avg_delta := (bg - old_bg) / 3
    let delta := bg - last_bg
    let sens := isf_lookup p bg_time
    let iob := autosens_calculate_iob_at_time expc p treatments bg_time
    let bgi := round_to_decimal (-iob.2 * sens * 5) 2
    let deviation0 := delta - bgi
    let deviation1 := if bg < 80 ∧ deviation0 > 0 then 0 else deviation0
    let deviation := round_to_decimal deviation1 2
    let popped := popMeals st.meals_stack.length st.meals_stack bg_time 0
    let st : ASState := { st with
      meals_stack := popped.1
      meal_cob := st.meal_cob + popped.2
      meal_carbs := st.meal_carbs + popped.2 }
    let st : ASState :=
      if st.meal_cob > 0 then
        let ci := max deviation p.min_5m_carbimpact
        let absorbed := ci * p.carb_ratio / sens
        { st with meal_cob := max (st.meal_cob - absorbed) 0 }
      else st
    let st : ASState :=
      if decide (st.meal_cob > 0) || st.absorbing || decide (st.meal_carbs > 0) then
        let absorbing : Bool := decide (deviation > 0)
        let absorbing : Bool :=
          if st.meal_start_counter > 60 ∧ st.meal_cob < 1/2 then false else absorbing
        let meal_carbs :=
          if absorbing = false ∧ st.meal_cob < 1/2 then 0 else st.meal_carbs
        let counter :=
          if st.current_type ≠ DeviationType.CarbAbsorption then 0
          else st.meal_start_counter
        { st with
          absorbing := absorbing
          meal_carbs := meal_carbs
          meal_start_counter := counter + 1
          current_type := DeviationType.CarbAbsorption }
      else
        let current_basal := basal_lookup p bg_time
        if (!cfg.retrospective && decide (iob.1 > 2 * current_basal)) || st.uam ||
            decide (st.meal_start_counter < 9) then
          { st with
            meal_start_counter := st.meal_start_counter + 1
            uam := decide (deviation > 0)
            current_type := DeviationType.Uam }
        else { st with current_type := DeviationType.NonMeal }
    let st : ASState :=
      if st.current_type = DeviationType.NonMeal then
        let st := { st with deviations := st.deviations ++ [deviation] }
        if p.exercise_mode ∨ p.high_temptarget_raises_sensitivity then
          match get_active_temp_target temp_targets bg_time with
          | some tt =>
            if tt > 100 then
              { st with deviations := st.deviations ++ [-(tt - 100) / 20] }
            else st
          | none => st
        else st
      else st
    let st : ASState :=
      let hours := minutesOfDay bg_time / 60
      let minutes := minutesOfDay bg_time % 60
      if minutes < 5 ∧ hours % 2 = 0 then
        { st with deviations := st.deviations ++ [0] }
      else st
    if st.deviations.length > cfg.lookback then
      { st with deviations := st.deviations.drop 1 }
    else st

/-- The `i ≥ 3` loop of `autosens::calculate_deviations` as a walk over
sliding windows of the bucketed data. -/
def asLoop (expc : ExpCurveFn) (p : Profile) (treatments : List Treatment)
    (temp_targets : List TempTarget) (cfg : AutosensConfig) :
    ASState → List ABucket → ASState
  | st, b0 :: b1 :: b2 :: b3 :: rest =>
    asLoop expc p treatments temp_targets cfg
      (asStep expc p treatments temp_targets cfg st b0 b2 b3)
      (b1 :: b2 :: b3 :: rest)
  | st, _ => st

/-- `autosens::calculate_deviations`. -/
def calculate_deviations (expc : ExpCurveFn) (p : Profile)
    (bucketed_data : List ABucket) (treatments : List Treatment)
    (meals : List (ℤ × ℚ)) (temp_targets : List TempTarget)
    (cfg : AutosensConfig) : List ℚ :=
  let st0 : ASState := { meals_stack := meals }
  let st := asLoop expc p treatments temp_targets cfg st0 bucketed_data
  if st.deviations.length < 96 then
    let pad := (rustRound ((1 - (st.deviations.length : ℚ) / 96) * 18)).toNat
    st.deviations ++ List.replicate pad 0
  else st.deviations

/-- `autosens::percentile`. -/
def percentile (sorted : List ℚ) (pp : ℚ) : ℚ :=
  match sorted with
  | [] => 0
  | _ =>
    let index := (rustRound (pp * ((sorted.length : ℚ) - 1))).toNat
    sorted.getD (min index (sorted.length - 1)) 0

/-- `autosens::calculate_ratio_from_deviations`. -/
def calculate_ratio_from_deviations (deviations : List ℚ) (p : Profile)
    (cfg : AutosensConfig) : ℚ :=
  match deviations with
  | [] => 1
  | _ =>
    let sorted := sortByRat (fun x => x) deviations
    let p50 := percentile sorted (1/2)
    let basal_off := p50 * (60 / 5) / p.sens
    let raw_ratio := 1 + basal_off / p.max_basal
    let ratio := min (max raw_ratio cfg.autosens_min) cfg.autosens_max
    (rustRound (ratio * 100) : ℚ) / 100

/-- The last-site-change window start computed at the top of
`autosens::detect_sensitivity_with_config` (24 h back from the clock, or
from the first reading in retrospective mode, extended to the most recent
rewind when `rewind_resets_autosens`). -/
def autosens_window_start (p : Profile) (treatments : List Treatment)
    (g0date clock : ℤ) (cfg : AutosensConfig) : ℤ :=
  let base : ℤ := if cfg.retrospective then g0date - 86400000 else clock - 86400000
  if p.rewind_resets_autosens then (find_last_rewind treatments).getD base
  else base

/-- `autosens::detect_sensitivity_with_config`. -/
def detect_sensitivity_with_config (expc : ExpCurveFn) (p : Profile)
    (glucose_data : List GlucoseReading) (treatments : List Treatment)
    (temp_targets : List TempTarget) (clock : ℤ) (cfg : AutosensConfig) :
    AutosensData :=
  match glucose_data with
  | [] => { ratio := 1 }
  | g0 :: _ =>
    let last_site_change := autosens_window_start p treatments g0.date clock cfg
    let bucketed_data := bucket_glucose_data_for_autosens glucose_data last_site_change
    if bucketed_data.length < 4 then { ratio := 1 }
    else
      let meals := find_meal_treatments treatments bucketed_data
      let deviations := calculate_deviations expc p bucketed_data treatments meals
        temp_targets cfg
      match deviations with
      | [] => { ratio := 1 }
      | _ => { ratio := calculate_ratio_from_deviations deviations p cfg }

/-- `autosens::detect_sensitivity` (default configuration, no temp
targets). -/
def detect_sensitivity (expc : ExpCurveFn) (p : Profile)
    (glucose_data : List GlucoseReading) (treatments : List Treatment)
    (clock : ℤ) : AutosensData :=
  detect_sensitivity_with_config expc p glucose_data treatments [] clock {}

/-- `insulin::calculate::ExponentialCurve::calculate` over `ℝ` (the faithful
model of the transcendental curve; result is the `(iob, activity)` pair). -/
noncomputable def ExponentialCurve_calculate (insulin mins_ago dia peak : ℝ) :
    ℝ × ℝ :=
  let dia' := max dia 5
  let te := dia' * 60
  if mins_ago ≥ te then (0, 0)
  else
    let tau := peak * (1 - peak / te) / (1 - 2 * peak / te)
    let a := 2 * tau / te
    let s := 1 / (1 - a + (1 + a) * Real.exp (-te / tau))
    let activity_contrib :=
      insulin * (s / (tau * tau)) * mins_ago * (1 - mins_ago / te) *
        Real.exp (-mins_ago / tau)
    let iob_contrib :=
      insulin * (1 - s * (1 - a) *
        ((mins_ago * mins_ago / (tau * te * (1 - a)) - mins_ago / tau - 1) *
          Real.exp (-mins_ago / tau) + 1))
    (iob_contrib, activity_contrib)

/-- The temp-basal decomposition exactly as the specification sentence for
claim C5 words it (for the refinement comparison): `⌈d/5⌉` impulses, the
`k`-th of amount `(r − scheduled_basal(t + 5k)) · min(5, d − 5k) / 60` with
the scheduled basal looked up *per chunk*, future chunks skipped. -/
def temp_basal_chunks_spec (p : Profile) (r d : ℚ) (t now : ℤ) :
    List Treatment :=
  ((List.range (⌈d / 5⌉).toNat).filter
      (fun (k : ℕ) => decide (t + (k : ℤ) * 300000 ≤ now))).map
    (fun (k : ℕ) =>
      { date := t + (k : ℤ) * 300000,
        insulin := some ((r - lookup_basal_at_time p (t + (k : ℤ) * 300000)) *
          min 5 (d - 5 * (k : ℚ)) / 60) })

/-- The decomposition the source actually performs (for the amended claim):
the scheduled basal is looked up once, at the temp start `t`, and impulses
at or below the 0.0001 U noise floor are dropped. -/
def temp_basal_chunks_amended (p : Profile) (r d : ℚ) (t now : ℤ) :
    List Treatment :=
  ((List.range (⌈d / 5⌉).toNat).takeWhile
      (fun (k : ℕ) => decide (t + (k : ℤ) * 300000 ≤ now))).filterMap
    (fun (k : ℕ) =>
      let amt := (r - lookup_basal_at_time p t) * min 5 (d - 5 * (k : ℚ)) / 60
      if |amt| > 1/10000 then
        some { date := t + (k : ℤ) * 300000, insulin := some amt }
      else none)

/-- Trivial instantiation of the abstract exponential-curve parameter, used
only to evaluate witnesses on concrete inputs that never reach the
exponential branch. -/
def expc0 : ExpCurveFn := fun _ _ _ _ => IOBContrib.zero

/-- Trivial instantiation of the abstract `f64::exp` parameter of the
prediction curves (the dosing outputs do not depend on it). -/
def expQ0 : ℚ → ℚ := fun _ => 0

/-- Concrete profile for the claim C1 counterexample: every SMB enable flag
is off, so `should_enable_smb` is false. -/
def profC1 : Profile :=
  { dia := 3, sens := 50, current_basal := 1, min_bg := 100, max_bg := 120,
    max_basal := 3, bolus_increment := 1/10, smb_delivery_ratio := 1/2 }

/-- Concrete glucose status for the claim C1 counterexample. -/
def gsC1 : GlucoseStatus := { glucose := 200 }

/-- Concrete profile for the claim C2 counterexample: `max_basal` is not a
multiple of the 0.05 U/hr pump increment. -/
def profC2 : Profile :=
  { dia := 3, sens := 50, current_basal := 1, min_bg := 100, max_bg := 120,
    max_basal := 353/100 }

/-- Concrete glucose status for the claim C2 counterexample. -/
def gsC2 : GlucoseStatus := { glucose := 300 }

/-- Concrete profile for the claim C5 counterexample: the scheduled basal
changes from 1 to 2 U/hr at minute 30 of the day. -/
def profC5 : Profile :=
  { dia := 3, current_basal := 1,
    basal_profile := [⟨0, 0, 1⟩, ⟨1, 30, 2⟩] }

/-- Concrete temp-basal event for the claim C5 counterexample: starts at
minute 25 of the day and runs 10 minutes, crossing the schedule change. -/
def evC5 : Treatment := { date := 1500000, rate := some 3, duration := some 10 }

/-- Concrete profile for the claim C6 counterexample. -/
def profC6 : Profile :=
  { dia := 3, sens := 50, carb_ratio := 10, min_5m_carbimpact := 8,
    max_meal_absorption_time := 6 }

/-- One 1 g carb entry at time 0 (claim C6 counterexample). -/
def carbsC6 : List Treatment := [{ date := 0, carbs := some 1 }]

/-- Six flat glucose readings, 5 minutes apart (claim C6 counterexample). -/
def glucoseC6 : List GlucoseReading :=
  [⟨100, 300000⟩, ⟨100, 600000⟩, ⟨100, 900000⟩,
   ⟨100, 1200000⟩, ⟨100, 1500000⟩, ⟨100, 1800000⟩]

/-- A 5-minute-regular, in-window series for the C9 witness. -/
def gdW9 : List GlucoseReading := [⟨100, 0⟩, ⟨101, 300000⟩, ⟨102, 600000⟩]

/-- Bilinear profile for the claim C10 signed-aggregation contrast. -/
def profC10 : Profile := { dia := 3, curve := InsulinCurve.Bilinear }

/-- A negative virtual impulse (suspended basal) at time 0 (claim C10). -/
def tnegC10 : Treatment := { date := 0, insulin := some (-1/2) }

/-- Strictly-positive-insulin filter used in the claim C10 statement. -/
def posInsulin (t : Treatment) : Bool := decide (0 < t.insulin.getD 0)

/-- A left fold that skips the elements a Boolean filter drops computes the
same value on the filtered list. -/
theorem foldl_filter_of_skip {α β : Type} (f : β → α → β) (q : α → Bool)
    (h : ∀ b a, q a = false → f b a = b) :
    ∀ (l : List α) (b : β), l.foldl f b = (l.filter q).foldl f b := by
  intro l
  induction l with
  | nil => intro b; rfl
  | cons a l ih =>
    intro b
    by_cases hq : q a = true
    · simp only [List.foldl_cons, List.filter_cons, hq, if_true, ih]
    · have hq' : q a = false := by simpa using hq
      simp only [List.foldl_cons, List.filter_cons, hq', if_false, h b a hq', ih]
      simp [hq']

/-- `iobAtTimeStep` leaves the accumulator unchanged on any treatment whose
insulin is not strictly positive. -/
theorem iobAtTimeStep_skip (expc : ExpCurveFn) (p : Profile)
    (tm dm : ℤ) (b : ℚ × ℚ) (a : Treatment) (h : posInsulin a = false) :
    iobAtTimeStep expc p tm dm b a = b := by
  simp only [posInsulin, decide_eq_false_iff_not, not_lt] at h
  simp [iobAtTimeStep, h]

/-- C10: the nested IOB-at-time helpers of COB and autosens sum
contributions only from treatments with strictly positive insulin: their
result on any treatment list equals their result on the
positive-insulin sublist; the main IOB aggregation instead applies signed
contributions, so a lone −0.5 U virtual impulse yields −0.5 U of IOB there
while contributing nothing to the nested helpers. -/
theorem nested_iob_ignores_nonpositive_insulin :
    (∀ (expc : ExpCurveFn) (p : Profile) (ts : List Treatment) (t : ℤ),
      cob_calculate_iob_at_time expc p ts t =
        cob_calculate_iob_at_time expc p (ts.filter posInsulin) t) ∧
    (∀ (expc : ExpCurveFn) (p : Profile) (ts : List Treatment) (t : ℤ),
      autosens_calculate_iob_at_time expc p ts t =
        autosens_calculate_iob_at_time expc p (ts.filter posInsulin) t) ∧
    (calculate_total_iob expc0 profC10 [tnegC10] 0).iob = -(1/2) ∧
    (cob_calculate_iob_at_time expc0 profC10 [tnegC10] 0).iob = 0 ∧
    (autosens_calculate_iob_at_time expc0 profC10 [tnegC10] 0).1 = 0 := by
  refine ⟨?_, ?_, ?_, ?_, ?_⟩
  · intro expc p ts t
    simp only [cob_calculate_iob_at_time]
    rw [foldl_filter_of_skip _ posInsulin (iobAtTimeStep_skip expc p t _) ts]
  · intro expc p ts t
    simp only [autosens_calculate_iob_at_time]
    rw [foldl_filter_of_skip _ posInsulin (iobAtTimeStep_skip expc p t _) ts]
  · norm_num [calculate_total_iob, totalIOBStep, List.foldl, profC10, tnegC10,
      expc0, Treatment.effective_date, ratTrunc, effective_dia,
      effective_peak_time, calculate_iob_contrib, BilinearCurve_calculate,
      IOBContrib.zero, abs_of_pos, abs_of_nonneg]
  · norm_num [cob_calculate_iob_at_time, iobAtTimeStep, List.foldl, profC10,
      tnegC10, expc0, Treatment.effective_date, ratTrunc]
  · norm_num [autosens_calculate_iob_at_time, iobAtTimeStep, List.foldl,
      profC10, tnegC10, expc0, Treatment.effective_date, ratTrunc]

/-- C3: for every input with `current_basal > 0` and `glucose < 80`,
`determine_basal` returns rate 0, duration 30, the reason string
`"BG <bg> < 80, temp zero"`, and no SMB units. -/
theorem determine_basal_low_glucose_suspend
    (expQ : ℚ → ℚ) (gs : GlucoseStatus) (ct : CurrentTemp) (iob : IOBData)
    (p : Profile) (asd : AutosensData) (meal : MealData) (mba : Bool) (now : ℤ)
    (hb : 0 < p.current_basal) (hbg : gs.glucose < 80) :
    (determine_basal expQ gs ct iob p asd meal mba now).rate = some 0 ∧
    (determine_basal expQ gs ct iob p asd meal mba now).duration = some 30 ∧
    (determine_basal expQ gs ct iob p asd meal mba now).units = none ∧
    (determine_basal expQ gs ct iob p asd meal mba now).reason =
      "BG " ++ fmtF64_0 gs.glucose ++ " < 80, temp zero" := by
  have h1 : ¬ p.current_basal ≤ 0 := not_le.mpr hb
  simp [determine_basal, h1, hbg, DetermineBasalResult.temp_basal]

/-- Witness for C3 at BG 70. -/
theorem determine_basal_low_glucose_suspend_witness :
    (determine_basal expQ0 { glucose := 70 } {} {} profC1 ⟨1⟩ {} false 0).rate
      = some 0 ∧
    (determine_basal expQ0 { glucose := 70 } {} {} profC1 ⟨1⟩ {} false 0).duration
      = some 30 ∧
    (determine_basal expQ0 { glucose := 70 } {} {} profC1 ⟨1⟩ {} false 0).units
      = none ∧
    (determine_basal expQ0 { glucose := 70 } {} {} profC1 ⟨1⟩ {} false 0).reason
      = "BG 70 < 80, temp zero" := by
  have h := determine_basal_low_glucose_suspend expQ0 { glucose := 70 } {} {}
    profC1 ⟨1⟩ {} false 0 (by norm_num [profC1]) (by norm_num)
  refine ⟨h.1, h.2.1, h.2.2.1, ?_⟩
  rw [h.2.2.2]
  have h1 : rheInt (70:ℚ) = 70 := by norm_num [rheInt]
  have h70 : fmtF64_0 (70:ℚ) = "70" := by
    simp only [fmtF64_0, h1]
    rw [if_neg (by norm_num)]
    rfl
  show "BG " ++ fmtF64_0 (70:ℚ) ++ " < 80, temp zero" = _
  rw [h70]
  rfl

/-- Arithmetic core of the SMB sizing bound: when the floored multiple of
the increment is at least the increment, it is a positive natural multiple
of the increment and does not exceed the unfloored value. -/
theorem smbFloorAux (s inc : ℚ) (hinc : 0 < inc)
    (hge : inc ≤ (⌊s / inc⌋ : ℚ) * inc) :
    (∃ k : ℕ, 1 ≤ k ∧ (⌊s / inc⌋ : ℚ) * inc = (k : ℚ) * inc) ∧
    (⌊s / inc⌋ : ℚ) * inc ≤ s := by
  have hfpos : 1 ≤ ⌊s / inc⌋ := by
    by_contra hlt
    push_neg at hlt
    have hle : ⌊s / inc⌋ ≤ 0 := by omega
    have : (⌊s / inc⌋ : ℚ) * inc ≤ 0 :=
      mul_nonpos_of_nonpos_of_nonneg (by exact_mod_cast hle) (le_of_lt hinc)
    linarith
  refine ⟨⟨(⌊s / inc⌋).toNat, by omega, ?_⟩, ?_⟩
  · have h3 : (((⌊s / inc⌋).toNat : ℕ) : ℚ) = ((⌊s / inc⌋ : ℤ) : ℚ) := by
      norm_cast
      omega
    rw [h3]
  · calc (⌊s / inc⌋ : ℚ) * inc
        ≤ s / inc * inc :=
          mul_le_mul_of_nonneg_right (Int.floor_le _) (le_of_lt hinc)
      _ = s := div_mul_cancel₀ s (ne_of_gt hinc)

/-- C8: SMB sizing.  Under the claim's preconditions (`insulin_req > 0`,
`smb_delivery_ratio ∈ [0,1]`, positive bolus increment), `calculate_smb`
returns exactly `min(insulin_req · smb_delivery_ratio, max_smb)` floored to
a multiple of `bolus_increment` — where `max_smb = (max_minutes/60)·basal`
and `max_minutes` is `max_smb_basal_minutes` when `cob > 0`, else
`max_uam_smb_basal_minutes` — suppressed when below `bolus_increment`; any
returned amount is a positive multiple of `bolus_increment` not exceeding
`max_smb`. -/
theorem calculate_smb_sizing (p : Profile) (insulin_req iob cob basal : ℚ)
    (hreq : 0 < insulin_req) (_hr0 : 0 ≤ p.smb_delivery_ratio)
    (hr1 : p.smb_delivery_ratio ≤ 1) (hinc : 0 < p.bolus_increment) :
    (calculate_smb p insulin_req iob cob basal =
      (let max_minutes : ℕ :=
        if cob > 0 then p.max_smb_basal_minutes else p.max_uam_smb_basal_minutes
       let max_smb := (max_minutes : ℚ) / 60 * basal
       let smb' := (⌊min (insulin_req * p.smb_delivery_ratio) max_smb /
          p.bolus_increment⌋ : ℚ) * p.bolus_increment
       if p.bolus_increment ≤ smb' then some smb' else none)) ∧
    ∀ u, calculate_smb p insulin_req iob cob basal = some u →
      (∃ k : ℕ, 1 ≤ k ∧ u = (k : ℚ) * p.bolus_increment) ∧
      u ≤ calculate_max_smb p iob cob basal := by
  have hratio : min p.smb_delivery_ratio 1 = p.smb_delivery_ratio :=
    min_eq_left hr1
  have hnotreq : ¬ insulin_req ≤ 0 := not_le.mpr hreq
  constructor
  · simp only [calculate_smb, hnotreq, if_false, hratio, calculate_max_smb]
  · intro u hu
    simp only [calculate_smb, hnotreq, if_false, hratio] at hu
    split at hu
    next hge =>
      injection hu with hu'
      subst hu'
      have aux := smbFloorAux
        (min (insulin_req * p.smb_delivery_ratio)
          (calculate_max_smb p iob cob basal)) p.bolus_increment hinc hge
      exact ⟨aux.1, le_trans aux.2 (min_le_right _ _)⟩
    next => exact absurd hu (by simp)

/-- Witness for C8: insulin requirement 1 U, 50 % delivery ratio, 30 min of
1 U/hr basal as cap, 0.1 U increment — the returned SMB is 0.5 U. -/
theorem calculate_smb_sizing_witness :
    calculate_smb profC1 1 0 50 1 = some (1/2) ∧
    ((1:ℚ)/2) ≤ calculate_max_smb profC1 0 50 1 := by
  have h := calculate_smb_sizing profC1 1 0 50 1 (by norm_num)
    (by norm_num [profC1]) (by norm_num [profC1]) (by norm_num [profC1])
  constructor
  · rw [h.1]
    norm_num [profC1, calculate_max_smb]
  · have := h.2
    norm_num [calculate_max_smb, profC1]

/-- Counterexample to C1 as stated: with every SMB enable flag off (so
`should_enable_smb` is false), `determine_basal` still emits a 0.5 U SMB —
the controller never consults the enable predicate. -/
theorem smb_emitted_without_enable_predicate :
    (determine_basal expQ0 gsC1 {} {} profC1 ⟨1⟩ {} true 0).units = some (1/2) ∧
    should_enable_smb profC1 true {} gsC1.glucose profC1.min_bg = false := by
  constructor
  · norm_num [determine_basal, calculate_eventual_bg, round_basal,
      round_to_increment, get_pump_increment, rustRound, calculate_smb,
      calculate_max_smb, profC1, gsC1]
  · norm_num [should_enable_smb, profC1, gsC1]

/-- C1 (amended): `determine_basal` emits SMB units only when
`micro_bolus_allowed` is true, `insulin_req > 0` and the eventual BG is
above `max_bg`, the amount being exactly the `calculate_smb` sizing; the
`should_enable_smb` predicate is not consulted by the controller. -/
theorem determine_basal_smb_gating (expQ : ℚ → ℚ) (gs : GlucoseStatus)
    (ct : CurrentTemp) (iob : IOBData) (p : Profile) (asd : AutosensData)
    (meal : MealData) (mba : Bool) (now : ℤ) :
    ∀ u, (determine_basal expQ gs ct iob p asd meal mba now).units = some u →
      mba = true ∧
      0 < (calculate_eventual_bg gs iob p - p.min_bg) / p.sens ∧
      calculate_eventual_bg gs iob p > p.max_bg ∧
      calculate_smb p ((calculate_eventual_bg gs iob p - p.min_bg) / p.sens)
        iob.iob meal.meal_cob (round_basal p.current_basal p) = some u := by
  intro u hu
  simp only [determine_basal] at hu
  split_ifs at hu with h1 h2 h3 h4 h5 h6 h7
  all_goals
    first
    | (simp only at hu
       exact ⟨h6.1, h6.2, h5, hu⟩)
    | (exact absurd hu
        (by simp [DetermineBasalResult.error, DetermineBasalResult.temp_basal]))

/-- Witness for the C1 amended theorem at the counterexample input. -/
theorem determine_basal_smb_gating_witness :
    0 < (calculate_eventual_bg gsC1 {} profC1 - profC1.min_bg) / profC1.sens ∧
    calculate_eventual_bg gsC1 {} profC1 > profC1.max_bg ∧
    calculate_smb profC1
      ((calculate_eventual_bg gsC1 {} profC1 - profC1.min_bg) / profC1.sens)
      (({} : IOBData).iob) (({} : MealData).meal_cob)
      (round_basal profC1.current_basal profC1) = some (1/2) := by
  have hu : (determine_basal expQ0 gsC1 {} {} profC1 ⟨1⟩ {} true 0).units
      = some (1/2) := by
    norm_num [determine_basal, calculate_eventual_bg, round_basal,
      round_to_increment, get_pump_increment, rustRound, calculate_smb,
      calculate_max_smb, profC1, gsC1]
  exact (determine_basal_smb_gating expQ0 gsC1 {} {} profC1 ⟨1⟩ {} true 0
    (1/2) hu).2

/-- Rounding half away from zero of a nonnegative value is nonnegative. -/
theorem rustRound_nonneg (x : ℚ) (h : 0 ≤ x) : 0 ≤ rustRound x := by
  unfold rustRound
  rw [if_pos h]
  exact Int.floor_nonneg.mpr (by linarith)

/-- `rustRound` overshoots by at most one half. -/
theorem rustRound_le (x : ℚ) : (rustRound x : ℚ) ≤ x + 1/2 := by
  unfold rustRound
  split
  · exact Int.floor_le (x + 1/2)
  · have h := Int.sub_one_lt_floor (-x + 1/2)
    push_cast
    linarith

/-- `rustRound` undershoots by at most one half. -/
theorem le_rustRound (x : ℚ) : x - 1/2 ≤ (rustRound x : ℚ) := by
  unfold rustRound
  split
  · have h := Int.sub_one_lt_floor (x + 1/2)
    linarith
  · have h := Int.floor_le (-x + 1/2)
    push_cast
    linarith

/-- The pump increment is 0.05 or 0.025 U/hr: positive and at most 0.05. -/
theorem get_pump_increment_bounds (p : Profile) :
    0 < get_pump_increment p ∧ get_pump_increment p ≤ 1/20 := by
  unfold get_pump_increment
  cases p.model with
  | none => norm_num
  | some m => dsimp only; split <;> norm_num

/-- `round_to_increment` of a nonnegative rate is nonnegative. -/
theorem round_to_increment_nonneg (v inc : ℚ) (hv : 0 ≤ v) (hinc : 0 < inc) :
    0 ≤ round_to_increment v inc := by
  unfold round_to_increment
  split
  · have := rustRound_nonneg (v * 10) (by linarith)
    positivity
  · have h1 := rustRound_nonneg (v / inc) (by positivity)
    have : (0:ℚ) ≤ (rustRound (v / inc) : ℚ) := by exact_mod_cast h1
    positivity

/-- `round_to_increment` overshoots by at most half the coarsest step. -/
theorem round_to_increment_le (v inc : ℚ) (hinc : 0 < inc)
    (hinc2 : inc ≤ 1/20) : round_to_increment v inc ≤ v + 1/20 := by
  unfold round_to_increment
  split
  · have h := rustRound_le (v * 10)
    linarith
  · have h := rustRound_le (v / inc)
    have h2 : (rustRound (v / inc) : ℚ) * inc ≤ (v / inc + 1/2) * inc :=
      mul_le_mul_of_nonneg_right h (le_of_lt hinc)
    have h3 : (v / inc + 1/2) * inc = v + inc / 2 := by
      field_simp
      ring
    nlinarith

/-- `round_basal` of a nonnegative rate is nonnegative. -/
theorem round_basal_nonneg (v : ℚ) (p : Profile) (hv : 0 ≤ v) :
    0 ≤ round_basal v p :=
  round_to_increment_nonneg v _ hv (get_pump_increment_bounds p).1

/-- `round_basal` overshoots by at most 0.05 U/hr. -/
theorem round_basal_le (v : ℚ) (p : Profile) : round_basal v p ≤ v + 1/20 :=
  round_to_increment_le v _ (get_pump_increment_bounds p).1
    (get_pump_increment_bounds p).2

/-- Counterexample to C2 as stated: with `max_basal = 3.53` (not a multiple
of the 0.05 U/hr pump increment), the above-target branch clamps to 3.53 and
then rounds *up* to 3.55 U/hr — strictly above `max_basal`. -/
theorem temp_rate_exceeds_max_basal :
    (determine_basal expQ0 gsC2 {} {} profC2 ⟨1⟩ {} false 0).rate
      = some (71/20) ∧
    profC2.max_basal < 71/20 := by
  constructor
  · norm_num [determine_basal, calculate_eventual_bg, round_basal,
      round_to_increment, get_pump_increment, rustRound, profC2, gsC2]
  · norm_num [profC2]

set_option maxHeartbeats 1000000 in
/-- C2 (amended): for every input with `current_basal > 0`, `sens > 0` and
`max_basal ≥ 0`, any recommended temp rate `r` satisfies
`0 ≤ r ≤ max(round_basal(current_basal), max_basal) + 0.05`: the claimed
upper bound `max_basal` can be exceeded by up to half a pump increment by
the final rounding, and by the rounded scheduled basal itself in the
in-range cancel-high-temp branch. -/
theorem determine_basal_rate_bounds (expQ : ℚ → ℚ) (gs : GlucoseStatus)
    (ct : CurrentTemp) (iob : IOBData) (p : Profile) (asd : AutosensData)
    (meal : MealData) (mba : Bool) (now : ℤ)
    (hb : 0 < p.current_basal) (hs : 0 < p.sens) (hmb : 0 ≤ p.max_basal) :
    ∀ r, (determine_basal expQ gs ct iob p asd meal mba now).rate = some r →
      0 ≤ r ∧ r ≤ max (round_basal p.current_basal p) p.max_basal + 1/20 := by
  intro r hr
  have hb0 : 0 ≤ round_basal p.current_basal p :=
    round_basal_nonneg _ p (le_of_lt hb)
  have hmax1 : round_basal p.current_basal p ≤
      max (round_basal p.current_basal p) p.max_basal := le_max_left _ _
  have hmax2 : p.max_basal ≤
      max (round_basal p.current_basal p) p.max_basal := le_max_right _ _
  have key : ∀ w : ℚ, 0 ≤ w →
      w ≤ max (round_basal p.current_basal p) p.max_basal →
      0 ≤ round_basal w p ∧
        round_basal w p ≤ max (round_basal p.current_basal p) p.max_basal + 1/20 := by
    intro w hw0 hwle
    refine ⟨round_basal_nonneg _ p hw0, ?_⟩
    have := round_basal_le w p
    linarith
  simp only [determine_basal] at hr
  split_ifs at hr with h1 h2 h3 h4 h5 h6 h7
  all_goals
    first
    | (injection hr; done)
    | (injection hr with hr'; subst hr')
  all_goals
    first
    | (guard_hyp h2 : gs.glucose < 80
       exact ⟨le_refl 0, by linarith⟩)
    | (guard_hyp h4 : ct.is_active = true ∧ ct.rate > round_basal p.current_basal p
       exact ⟨hb0, by linarith⟩)
    | (guard_hyp h5 : calculate_eventual_bg gs iob p > p.max_bg
       exact key _ (le_min (le_max_right _ _) hmb)
         (le_trans (min_le_right _ _) hmax2))
    | (guard_hyp h7 : calculate_eventual_bg gs iob p < p.min_bg
       have hreq : (calculate_eventual_bg gs iob p - p.min_bg) / p.sens < 0 :=
         div_neg_of_neg_of_pos (by linarith) hs
       exact key _ (le_max_right _ _)
         (le_trans (max_le (by linarith) hb0) hmax1))

/-- Witness for the C2 amended theorem at the counterexample input: the
3.55 U/hr rounded rate respects the amended bound 3.53 + 0.05. -/
theorem determine_basal_rate_bounds_witness :
    0 ≤ (71/20 : ℚ) ∧
    (71/20 : ℚ) ≤ max (round_basal profC2.current_basal profC2)
      profC2.max_basal + 1/20 := by
  have hr : (determine_basal expQ0 gsC2 {} {} profC2 ⟨1⟩ {} false 0).rate
      = some (71/20) := by
    norm_num [determine_basal, calculate_eventual_bg, round_basal,
      round_to_increment, get_pump_increment, rustRound, profC2, gsC2]
  exact determine_basal_rate_bounds expQ0 gsC2 {} {} profC2 ⟨1⟩ {} false 0
    (by norm_num [profC2]) (by norm_num [profC2]) (by norm_num [profC2])
    (71/20) hr

/-- On a valid, in-window, exactly-5-minute-spaced tail, the bucketing walk
appends each reading unchanged. -/
theorem bucketLoop_regular (meal : ℤ) (maxH : ℚ) :
    ∀ (rest : List GlucoseReading) (prev : GlucoseReading)
      (acc : List BucketedGlucose) (lb : ℚ),
      (∀ r ∈ rest, 39 ≤ r.glucose) →
      (∀ r ∈ rest, 0 ≤ ((r.date - meal : ℤ) : ℚ) / 3600000 ∧
        ((r.date - meal : ℤ) : ℚ) / 3600000 ≤ maxH) →
      List.Chain (fun a b => b.date = a.date + 300000) prev rest →
      bucketLoop meal maxH rest acc prev.date lb false =
        acc ++ rest.map (fun r => { date := r.date, glucose := r.glucose }) := by
  intro rest
  induction rest with
  | nil => intro prev acc lb _ _ _; simp [bucketLoop]
  | cons r rest ih =>
    intro prev acc lb h39 hwin hchain
    rw [List.chain_cons] at hchain
    obtain ⟨hd, hchain'⟩ := hchain
    have hg : ¬ (r.glucose < 39) :=
      not_lt.mpr (h39 r (List.mem_cons_self r rest))
    have hh := hwin r (List.mem_cons_self r rest)
    have hC2 : ¬ (((r.date - meal : ℤ) : ℚ) / 3600000 > maxH ∨ false = true) :=
      not_or.mpr ⟨not_lt.mpr hh.2, by simp⟩
    have hC3 : decide (((r.date - meal : ℤ) : ℚ) / 3600000 < 0) = false :=
      decide_eq_false (not_lt.mpr hh.1)
    have helapsed : ((r.date - prev.date : ℤ) : ℚ) / 60000 = 5 := by
      rw [hd]
      push_cast
      ring_nf
    simp only [bucketLoop]
    rw [if_neg hg, if_neg hC2, helapsed, hC3]
    rw [if_neg (by norm_num : ¬ (|(5:ℚ)| > 8)), if_pos (by norm_num : |(5:ℚ)| > 2)]
    simp only [Bool.or_false]
    have := ih r (acc ++ [{ date := r.date, glucose := r.glucose }]) r.glucose
      (fun x hx => h39 x (List.mem_cons_of_mem r hx))
      (fun x hx => hwin x (List.mem_cons_of_mem r hx)) hchain'
    rw [this]
    simp

/-- C9: on a chronological series whose samples are all valid (≥ 39 mg/dL),
all inside the meal-absorption window, and spaced exactly 5 minutes apart,
`bucket_glucose_data` returns the series unchanged; hence applying the
bucketing stage twice equals applying it once. -/
theorem bucket_glucose_data_idempotent (gd : List GlucoseReading)
    (meal : ℤ) (maxH : ℚ)
    (h39 : ∀ r ∈ gd, 39 ≤ r.glucose)
    (hwin : ∀ r ∈ gd, 0 ≤ ((r.date - meal : ℤ) : ℚ) / 3600000 ∧
      ((r.date - meal : ℤ) : ℚ) / 3600000 ≤ maxH)
    (hchain : List.Chain' (fun a b => b.date = a.date + 300000) gd) :
    bucket_glucose_data gd meal maxH =
      gd.map (fun r => { date := r.date, glucose := r.glucose }) ∧
    bucket_glucose_data ((bucket_glucose_data gd meal maxH).map
        (fun b => { glucose := b.glucose, date := b.date })) meal maxH =
      bucket_glucose_data gd meal maxH := by
  have h1 : bucket_glucose_data gd meal maxH =
      gd.map (fun r => { date := r.date, glucose := r.glucose }) := by
    cases gd with
    | nil => rfl
    | cons first rest =>
      simp only [bucket_glucose_data]
      rw [if_pos (h39 first (List.mem_cons_self first rest))]
      rw [bucketLoop_regular meal maxH rest first
        [{ date := first.date, glucose := first.glucose }] first.glucose
        (fun x hx => h39 x (List.mem_cons_of_mem first hx))
        (fun x hx => hwin x (List.mem_cons_of_mem first hx)) hchain]
      simp
  refine ⟨h1, ?_⟩
  rw [h1]
  have hroundtrip : (gd.map (fun r =>
      ({ date := r.date, glucose := r.glucose } : BucketedGlucose))).map
        (fun b => ({ glucose := b.glucose, date := b.date } : GlucoseReading)) = gd := by
    rw [List.map_map]
    have : ((fun b => ({ glucose := b.glucose, date := b.date } : GlucoseReading)) ∘
        (fun r => ({ date := r.date, glucose := r.glucose } : BucketedGlucose))) =
        fun r => r := by
      funext r
      rfl
    rw [this]
    exact List.map_id gd
  rw [hroundtrip, h1]

/-- Witness for C9 on a concrete 3-sample regular series. -/
theorem bucket_glucose_data_idempotent_witness :
    bucket_glucose_data gdW9 0 6 =
      [{ date := 0, glucose := 100 }, { date := 300000, glucose := 101 },
       { date := 600000, glucose := 102 }] ∧
    bucket_glucose_data ((bucket_glucose_data gdW9 0 6).map
        (fun b => { glucose := b.glucose, date := b.date })) 0 6 =
      bucket_glucose_data gdW9 0 6 := by
  have h := bucket_glucose_data_idempotent gdW9 0 6
    (by intro r hr; fin_cases hr <;> norm_num [gdW9])
    (by intro r hr; fin_cases hr <;> norm_num [gdW9])
    (by norm_num [gdW9])
  refine ⟨?_, h.2⟩
  rw [h.1]
  norm_num [gdW9]

/-- Inserting an element whose key is strictly below every key of the list
places it at the front. -/
theorem insertByKey_front {α : Type} (key : α → ℤ) (a : α) (l : List α)
    (h : ∀ b ∈ l, key a < key b) : insertByKey key a l = a :: l := by
  cases l with
  | nil => rfl
  | cons b l =>
    have hb := h b (List.mem_cons_self b l)
    simp [insertByKey, not_le.mpr hb]

/-- The stable insertion sort fixes any list whose keys are already
strictly increasing. -/
theorem sortByKey_of_pairwise {α : Type} (key : α → ℤ) (l : List α)
    (h : l.Pairwise (fun x y => key x < key y)) : sortByKey key l = l := by
  induction l with
  | nil => rfl
  | cons a l ih =>
    have hc := List.pairwise_cons.mp h
    simp only [sortByKey]
    rw [ih hc.2]
    exact insertByKey_front key a l hc.1

/-- Inside the chunk range of a positive-duration temp, the source's
last-chunk duration `if k = chunks−1 then d − 5k else 5` coincides with the
specification's `min 5 (d − 5k)`, so the source decomposition equals the
amended (start-time-lookup) decomposition. -/
theorem temp_basal_chunks_eq_amended (p : Profile) (r d : ℚ) (t now : ℤ)
    (hd0 : 0 < d) :
    temp_basal_chunks (r - lookup_basal_at_time p t) d t now =
      temp_basal_chunks_amended p r d t now := by
  simp only [temp_basal_chunks, temp_basal_chunks_amended]
  apply List.filterMap_congr
  intro k hk
  have hceil : (1:ℤ) ≤ ⌈d / 5⌉ := by
    have h5 : (0:ℚ) < d / 5 := by linarith
    have := Int.ceil_pos.mpr h5
    omega
  have hklt : (k:ℤ) < ⌈d / 5⌉ := by
    have := List.mem_range.mp ((List.takeWhile_sublist _).subset hk)
    omega
  have hdur : (if (k:ℤ) = ⌈d / 5⌉ - 1 then d - (k:ℚ) * 5 else (5:ℚ)) =
      min 5 (d - 5 * (k:ℚ)) := by
    by_cases hlast : (k:ℤ) = ⌈d / 5⌉ - 1
    · rw [if_pos hlast]
      have h3 : ((k:ℚ)) = ((⌈d / 5⌉ : ℤ) : ℚ) - 1 := by
        have : ((k:ℤ) : ℚ) = ((⌈d / 5⌉ - 1 : ℤ) : ℚ) := by exact_mod_cast hlast
        push_cast at this
        exact this
      have h2 : d - 5 * (k:ℚ) ≤ 5 := by
        have := Int.le_ceil (d / 5)
        rw [h3]
        linarith
      rw [min_eq_right h2]
      ring
    · rw [if_neg hlast]
      have hk2 : (k:ℤ) ≤ ⌈d / 5⌉ - 2 := by omega
      have h3 : ((⌈d / 5⌉ : ℤ) : ℚ) < d / 5 + 1 := Int.ceil_lt_add_one _
      have h4 : (5:ℚ) ≤ d - 5 * (k:ℚ) := by
        have h5 : ((k:ℚ)) ≤ ((⌈d / 5⌉ : ℤ) : ℚ) - 2 := by exact_mod_cast hk2
        linarith
      rw [min_eq_left h4]
  rw [hdur]

/-- The chunk dates of the amended temp-basal decomposition are strictly
increasing. -/
theorem temp_basal_chunks_amended_pairwise (p : Profile) (r d : ℚ)
    (t now : ℤ) :
    (temp_basal_chunks_amended p r d t now).Pairwise
      (fun x y => Treatment.effective_date x < Treatment.effective_date y) := by
  simp only [temp_basal_chunks_amended]
  rw [List.pairwise_filterMap]
  have base : ((List.range (⌈d / 5⌉).toNat).takeWhile
      (fun (k : ℕ) => decide (t + (k : ℤ) * 300000 ≤ now))).Pairwise (· < ·) :=
    (List.pairwise_lt_range _).sublist (List.takeWhile_sublist _)
  refine base.imp ?_
  intro a b hab x hx y hy
  split at hx
  · split at hy
    · simp only [Option.mem_def, Option.some.injEq] at hx hy
      subst hx
      subst hy
      simp only [Treatment.effective_date]
      omega
    · simp at hy
  · simp at hx

/-- Counterexample to C5 as stated: across a mid-temp basal-schedule change
(1 U/hr until minute 30, then 2 U/hr; temp of 3 U/hr for 10 min starting at
minute 25) the source computes every chunk with the scheduled basal looked
up once, at the temp start, so its second impulse is (3−1)·5/60 = 1/6 U,
while the claimed per-chunk lookup gives (3−2)·5/60 = 1/12 U. -/
theorem temp_basal_chunks_lookup_divergence :
    (find_insulin_treatments profC5 [evC5] 3600000 0).map
        (fun t => (t.date, t.insulin)) =
      [(1500000, some ((1:ℚ)/6)), (1800000, some ((1:ℚ)/6))] ∧
    (temp_basal_chunks_spec profC5 3 10 1500000 3600000).map
        (fun t => (t.date, t.insulin)) =
      [(1500000, some ((1:ℚ)/6)), (1800000, some ((1:ℚ)/12))] ∧
    find_insulin_treatments profC5 [evC5] 3600000 0 ≠
      temp_basal_chunks_spec profC5 3 10 1500000 3600000 := by
  have h2 : ⌈(10:ℚ) / 5⌉ = (2:ℤ) := by norm_num
  have hrange : List.range ((2:ℤ)).toNat = [0, 1] := by decide
  have hm1 : minutesOfDay 1500000 = 25 := by decide
  have hm2 : minutesOfDay 1800000 = 30 := by decide
  have hlook1 : lookup_basal_at_time profC5 1500000 = 1 := by
    norm_num [lookup_basal_at_time, profC5, sortByKey, insertByKey,
      scheduleScan, hm1]
  have hlook2 : lookup_basal_at_time profC5 1800000 = 2 := by
    norm_num [lookup_basal_at_time, profC5, sortByKey, insertByKey,
      scheduleScan, hm2]
  have hdia : ratTrunc (effective_dia profC5 * 3600000) = 10800000 := by
    norm_num [ratTrunc, effective_dia, profC5]
  have hcode : (find_insulin_treatments profC5 [evC5] 3600000 0).map
      (fun t => (t.date, t.insulin)) =
      [(1500000, some ((1:ℚ)/6)), (1800000, some ((1:ℚ)/6))] := by
    norm_num [find_insulin_treatments, temp_basal_chunks,
      Treatment.effective_date, evC5, hdia, hlook1, h2, hrange,
      List.takeWhile_cons, List.filterMap_cons, sortByKey, insertByKey,
      abs_of_pos, abs_of_nonneg]
  have hspec : (temp_basal_chunks_spec profC5 3 10 1500000 3600000).map
      (fun t => (t.date, t.insulin)) =
      [(1500000, some ((1:ℚ)/6)), (1800000, some ((1:ℚ)/12))] := by
    norm_num [temp_basal_chunks_spec, hlook1, hlook2, h2, hrange,
      List.filter_cons, min_def]
  refine ⟨hcode, hspec, fun heq => ?_⟩
  rw [heq, hspec] at hcode
  norm_num at hcode

/-- C5 (amended): for a temp-basal event (rate `r`, duration `d > 0`,
start `t` inside the DIA window), `find_insulin_treatments` decomposes it
into `⌈d/5⌉` virtual impulses, the `k`-th of amount
`(r − scheduled_basal(t)) · min(5, d − 5k)/60` — the scheduled basal being
looked up once, at the temp start, not per chunk — stopping at the first
chunk whose start is in the future and dropping impulses at or below the
0.0001 U noise floor. -/
theorem find_insulin_treatments_single_temp (p : Profile) (ev : Treatment)
    (clock : ℤ) (r d : ℚ)
    (hins : ev.insulin = none) (hr : ev.rate = some r)
    (hd : ev.duration = some d) (hd0 : 0 < d)
    (hlo : clock - ratTrunc (effective_dia p * 3600000) ≤ ev.date)
    (hhi : ev.date ≤ clock) :
    find_insulin_treatments p [ev] clock 0 =
      temp_basal_chunks_amended p r d ev.date clock := by
  have hwin : ¬ (ev.date < clock - ratTrunc (effective_dia p * 3600000) ∨
      ev.date > clock) := by
    push_neg
    exact ⟨hlo, hhi⟩
  have hz : ¬ ((0:ℤ) > 0) := by norm_num
  simp only [find_insulin_treatments, List.flatMap_cons, List.flatMap_nil,
    Treatment.effective_date, hins, hr, hd, if_neg hwin, if_pos hd0,
    if_neg hz, List.append_nil, List.nil_append]
  rw [temp_basal_chunks_eq_amended p r d ev.date clock hd0]
  exact sortByKey_of_pairwise _ _
    (temp_basal_chunks_amended_pairwise p r d ev.date clock)

/-- Membership in a key-ordered insertion. -/
theorem mem_insertByKey {α : Type} (key : α → ℤ) (a x : α) (l : List α) :
    x ∈ insertByKey key a l ↔ x = a ∨ x ∈ l := by
  induction l with
  | nil => simp [insertByKey]
  | cons b l ih =>
    simp only [insertByKey]
    split <;> simp only [List.mem_cons, ih] <;> tauto

/-- The stable insertion sort preserves membership. -/
theorem mem_sortByKey {α : Type} (key : α → ℤ) (l : List α) (x : α) :
    x ∈ sortByKey key l ↔ x ∈ l := by
  induction l with
  | nil => simp [sortByKey]
  | cons a l ih =>
    simp only [sortByKey, mem_insertByKey, ih, List.mem_cons]

/-- A schedule scan with a positive default over entries with positive
values returns a positive value. -/
theorem scheduleScan_pos {α : Type} (start : α → ℤ) (value : α → ℚ)
    (now : ℤ) (dflt : ℚ) (l : List α) (hd : 0 < dflt)
    (hv : ∀ e ∈ l, 0 < value e) : 0 < scheduleScan start value now dflt l := by
  induction l with
  | nil => simpa [scheduleScan] using hd
  | cons e l ih =>
    cases l with
    | nil =>
      simp only [scheduleScan]
      split
      · exact hv e (List.mem_cons_self e [])
      · exact hd
    | cons e2 rest =>
      simp only [scheduleScan]
      split
      · exact hv e (List.mem_cons_self e (e2 :: rest))
      · exact ih (fun x hx => hv x (List.mem_cons_of_mem e hx))

/-- With a positive scalar `sens` and positive schedule sensitivities, the
ISF lookup is positive at every time. -/
theorem isf_lookup_pos (p : Profile) (t : ℤ) (hs : 0 < p.sens)
    (hall : ∀ e ∈ p.isf_profile.sensitivities, 0 < e.sensitivity) :
    0 < isf_lookup p t := by
  simp only [isf_lookup, isf_lookup_from_schedule]
  cases hl : p.isf_profile.sensitivities with
  | nil => simpa using hs
  | cons s0 srest =>
    have hall' : ∀ e ∈ sortByKey (fun e => e.offset) (s0 :: srest),
        0 < e.sensitivity := by
      intro e he
      apply hall e
      rw [hl]
      exact (mem_sortByKey _ _ e).mp he
    dsimp only
    cases hsched : sortByKey (fun e => e.offset) (s0 :: srest) with
    | nil => simpa using hs
    | cons e0 erest =>
      dsimp only
      by_cases hoff : e0.offset ≠ 0
      · rw [if_pos hoff]
        simpa using hs
      · rw [if_neg hoff]
        simp only [Option.getD_some]
        apply scheduleScan_pos
        · cases hgl : (e0 :: erest).getLast? with
          | none => simp at hgl
          | some elast =>
            show 0 < elast.sensitivity
            apply hall' elast
            rw [hsched]
            exact List.mem_of_mem_getLast? hgl
        · intro x hx
          apply hall' x
          rw [hsched]
          exact hx

/-- `cobStep` never decreases `carbs_absorbed` when the carb-impact floor
is nonnegative, the carb ratio is positive and the ISF lookup is positive. -/
theorem cobStep_absorbed_mono (expc : ExpCurveFn) (p : Profile)
    (treatments : List Treatment) (meal ci : ℤ) (i : ℕ) (st : CobState)
    (b0 b1 b3 : BucketedGlucose)
    (h5 : 0 ≤ p.min_5m_carbimpact) (hcr : 0 < p.carb_ratio)
    (hs : 0 < p.sens)
    (hall : ∀ e ∈ p.isf_profile.sensitivities, 0 < e.sensitivity) :
    st.carbs_absorbed ≤
      (cobStep expc p treatments meal ci i st b0 b1 b3).carbs_absorbed := by
  have hsens := isf_lookup_pos p b0.date hs hall
  have key : ∀ (st' : CobState) (dev : ℚ), st'.carbs_absorbed = st.carbs_absorbed →
      st.carbs_absorbed ≤
        (if b0.date > meal then
          { st' with carbs_absorbed := st'.carbs_absorbed +
              (max (max dev (st'.current_deviation / 2)) p.min_5m_carbimpact) *
                p.carb_ratio / isf_lookup p b0.date }
         else st').carbs_absorbed := by
    intro st' dev hca
    split
    · have hnn : 0 ≤ (max (max dev (st'.current_deviation / 2))
          p.min_5m_carbimpact) * p.carb_ratio / isf_lookup p b0.date :=
        div_nonneg (mul_nonneg (le_trans h5 (le_max_right _ _)) hcr.le) hsens.le
      show st.carbs_absorbed ≤ st'.carbs_absorbed +
        (max (max dev (st'.current_deviation / 2)) p.min_5m_carbimpact) *
          p.carb_ratio / isf_lookup p b0.date
      linarith
    · exact le_of_eq hca.symm
  simp only [cobStep]
  split
  · exact le_refl _
  · refine key _ _ ?_
    split_ifs <;> simp

/-- `cobLoop` never decreases `carbs_absorbed`. -/
theorem cobLoop_absorbed_mono (expc : ExpCurveFn) (p : Profile)
    (treatments : List Treatment) (meal ci : ℤ)
    (h5 : 0 ≤ p.min_5m_carbimpact) (hcr : 0 < p.carb_ratio)
    (hs : 0 < p.sens)
    (hall : ∀ e ∈ p.isf_profile.sensitivities, 0 < e.sensitivity) :
    ∀ (bs : List BucketedGlucose) (i : ℕ) (st : CobState),
      st.carbs_absorbed ≤
        (cobLoop expc p treatments meal ci i st bs).carbs_absorbed := by
  intro bs
  induction bs with
  | nil => intro i st; simp [cobLoop]
  | cons b0 rest ih =>
    intro i st
    match rest with
    | [] => simp [cobLoop]
    | [b1] => simp [cobLoop]
    | [b1, b2] => simp [cobLoop]
    | b1 :: b2 :: b3 :: r =>
      simp only [cobLoop]
      exact le_trans
        (cobStep_absorbed_mono expc p treatments meal ci i st b0 b1 b3
          h5 hcr hs hall)
        (ih (i + 1) (cobStep expc p treatments meal ci i st b0 b1 b3))

/-- `detect_carb_absorption_internal` reports a nonnegative
`carbs_absorbed`. -/
theorem detect_carb_absorption_internal_nonneg (expc : ExpCurveFn)
    (p : Profile) (gd : List GlucoseReading) (ts : List Treatment)
    (meal ci : ℤ)
    (h5 : 0 ≤ p.min_5m_carbimpact) (hcr : 0 < p.carb_ratio)
    (hs : 0 < p.sens)
    (hall : ∀ e ∈ p.isf_profile.sensitivities, 0 < e.sensitivity) :
    0 ≤ (detect_carb_absorption_internal expc p gd ts meal ci).carbs_absorbed := by
  cases gd with
  | nil => simp [detect_carb_absorption_internal]
  | cons g grest =>
    simp only [detect_carb_absorption_internal]
    split
    · norm_num
    · exact cobLoop_absorbed_mono expc p ts meal ci h5 hcr hs hall _ 0 {}

/-- The summed carb entries since the meal are nonnegative (only entries of
at least 1 g are added). -/
theorem calculate_total_carbs_nonneg (ts : List Treatment) (meal clock : ℤ) :
    0 ≤ calculate_total_carbs ts meal clock := by
  simp only [calculate_total_carbs]
  generalize ((ts.filter _).filterMap _) = l
  induction l with
  | nil => simp
  | cons c l ih =>
    simp only [List.foldr_cons]
    split
    · next h1 => linarith
    · exact ih
theorem find_insulin_treatments_single_temp_witness :
    find_insulin_treatments profC5 [evC5] 3600000 0 =
      temp_basal_chunks_amended profC5 3 10 evC5.date 3600000 :=
  find_insulin_treatments_single_temp profC5 evC5 3600000 3 10 rfl rfl rfl
    (by norm_num) (by norm_num [ratTrunc, effective_dia, profC5, evC5])
    (by norm_num [evC5])

/-- On a chronological series of valid, in-window, exactly-5-minute-spaced
samples, `bucket_glucose_data` is the identity up to record repackaging. -/
theorem bucket_glucose_data_regular (gd : List GlucoseReading)
    (meal : ℤ) (maxH : ℚ)
    (h39 : ∀ r ∈ gd, 39 ≤ r.glucose)
    (hwin : ∀ r ∈ gd, 0 ≤ ((r.date - meal : ℤ) : ℚ) / 3600000 ∧
      ((r.date - meal : ℤ) : ℚ) / 3600000 ≤ maxH)
    (hchain : List.Chain' (fun a b => b.date = a.date + 300000) gd) :
    bucket_glucose_data gd meal maxH =
      gd.map (fun r => { date := r.date, glucose := r.glucose }) := by
  cases gd with
  | nil => rfl
  | cons first rest =>
    simp only [bucket_glucose_data]
    rw [if_pos (h39 first (List.mem_cons_self first rest))]
    rw [bucketLoop_regular meal maxH rest first
      [{ date := first.date, glucose := first.glucose }] first.glucose
      (fun x hx => h39 x (List.mem_cons_of_mem first hx))
      (fun x hx => hwin x (List.mem_cons_of_mem first hx)) hchain]
    simp

/-- The bilinear curve returns the full dose at time zero. -/
theorem BilinearCurve_iob_at_zero (U dia : ℚ) :
    (BilinearCurve_calculate U 0 dia).iob_contrib = U := by
  simp only [BilinearCurve_calculate]
  rw [if_pos (by norm_num : (3 / max dia 3 * 0 : ℚ) < 75)]
  show U * _ = U
  ring_nf

/-- The bilinear curve returns exactly zero IOB once the (DIA-scaled) end
of action is reached. -/
theorem BilinearCurve_iob_after_end (U dia m : ℚ)
    (hm : max dia 3 * 60 ≤ m) :
    (BilinearCurve_calculate U m dia).iob_contrib = 0 := by
  have hdia : (3:ℚ) ≤ max dia 3 := le_max_right _ _
  have hdia0 : (0:ℚ) < max dia 3 := by linarith
  have hfold : 3 / max dia 3 * (max dia 3 * 60) = 180 := by
    field_simp
    ring
  have h180 : (180:ℚ) ≤ 3 / max dia 3 * m := by
    have := mul_le_mul_of_nonneg_left hm (by positivity : (0:ℚ) ≤ 3 / max dia 3)
    rw [hfold] at this
    exact this
  simp only [BilinearCurve_calculate]
  rw [if_neg (by linarith), if_neg (by linarith)]
  rfl

set_option maxHeartbeats 1000000 in
/-- Near-monotonicity of the bilinear IOB polynomials: over the whole
action interval the IOB can rise by at most `U/1000` (the seam of the
two quadratics sits slightly below their meeting point, and the second
quadratic turns upward after its vertex). -/
theorem BilinearCurve_iob_quasi_mono (U dia m1 m2 : ℚ)
    (hU : 0 < U) (h0 : 0 ≤ m1) (h12 : m1 ≤ m2)
    (h2 : m2 ≤ max dia 3 * 60) :
    (BilinearCurve_calculate U m2 dia).iob_contrib ≤
      (BilinearCurve_calculate U m1 dia).iob_contrib + U / 1000 := by
  have hdia : (3:ℚ) ≤ max dia 3 := le_max_right _ _
  have hdia0 : (0:ℚ) < max dia 3 := by linarith
  set dia' := max dia 3 with hdia_def
  have hv : ∀ m : ℚ, (BilinearCurve_calculate U m dia).iob_contrib =
      (if 3 / dia' * m < 75 then
        U * ((-1852/1000000) * (3 / dia' * m / 5 + 1) * (3 / dia' * m / 5 + 1)
          + (1852/1000000) * (3 / dia' * m / 5 + 1) + 1)
       else if 3 / dia' * m < 180 then
        U * ((1323/1000000) * ((3 / dia' * m - 75) / 5) * ((3 / dia' * m - 75) / 5)
          + (-54233/1000000) * ((3 / dia' * m - 75) / 5) + 555560/1000000)
       else 0) := by
    intro m
    simp only [BilinearCurve_calculate]
    rw [← hdia_def]
    split_ifs <;> rfl
  rw [hv m1, hv m2]
  set s1 := 3 / dia' * m1 with hs1_def
  set s2 := 3 / dia' * m2 with hs2_def
  have hscale : (0:ℚ) < 3 / dia' := by positivity
  have hs10 : 0 ≤ s1 := mul_nonneg hscale.le h0
  have hs12 : s1 ≤ s2 := mul_le_mul_of_nonneg_left h12 hscale.le
  have hs2180 : s2 ≤ 180 := by
    have hfold : 3 / dia' * (dia' * 60) = 180 := by
      field_simp
      ring
    have := mul_le_mul_of_nonneg_left h2 hscale.le
    rw [hfold] at this
    exact this
  by_cases c2a : s2 < 75
  · have c1a : s1 < 75 := lt_of_le_of_lt hs12 c2a
    rw [if_pos c2a, if_pos c1a]
    have hq : (-1852/1000000 : ℚ) * (s2 / 5 + 1) * (s2 / 5 + 1)
          + (1852/1000000) * (s2 / 5 + 1) + 1 ≤
        ((-1852/1000000) * (s1 / 5 + 1) * (s1 / 5 + 1)
          + (1852/1000000) * (s1 / 5 + 1) + 1) + 1/1000 := by
      nlinarith [mul_nonneg (sub_nonneg.mpr hs12) hs10,
        mul_nonneg (sub_nonneg.mpr hs12) (le_trans hs10 hs12)]
    nlinarith [mul_le_mul_of_nonneg_left hq hU.le]
  · push_neg at c2a
    rw [if_neg (not_lt.mpr c2a)]
    by_cases c2b : s2 < 180
    · rw [if_pos c2b]
      by_cases c1a : s1 < 75
      · rw [if_pos c1a]
        have hub : (1323/1000000 : ℚ) * ((s2 - 75) / 5) * ((s2 - 75) / 5)
            + (-54233/1000000) * ((s2 - 75) / 5) + 555560/1000000 ≤
            55556/100000 := by
          nlinarith [mul_nonneg (by linarith : (0:ℚ) ≤ s2 - 75)
            (by linarith : (0:ℚ) ≤ 180 - s2)]
        have hlb : (55552/100000 : ℚ) ≤
            (-1852/1000000) * (s1 / 5 + 1) * (s1 / 5 + 1)
              + (1852/1000000) * (s1 / 5 + 1) + 1 := by
          nlinarith [mul_nonneg (by linarith : (0:ℚ) ≤ 75 - s1) hs10]
        have hq : (1323/1000000 : ℚ) * ((s2 - 75) / 5) * ((s2 - 75) / 5)
            + (-54233/1000000) * ((s2 - 75) / 5) + 555560/1000000 ≤
            ((-1852/1000000) * (s1 / 5 + 1) * (s1 / 5 + 1)
              + (1852/1000000) * (s1 / 5 + 1) + 1) + 1/1000 := by
          linarith
        nlinarith [mul_le_mul_of_nonneg_left hq hU.le]
      · have c1b : s1 < 180 := lt_of_le_of_lt hs12 c2b
        rw [if_neg c1a, if_pos c1b]
        have hq : (1323/1000000 : ℚ) * ((s2 - 75) / 5) * ((s2 - 75) / 5)
            + (-54233/1000000) * ((s2 - 75) / 5) + 555560/1000000 ≤
            ((1323/1000000) * ((s1 - 75) / 5) * ((s1 - 75) / 5)
              + (-54233/1000000) * ((s1 - 75) / 5) + 555560/1000000) + 1/1000 := by
          nlinarith [mul_nonneg (sub_nonneg.mpr hs12)
              (by linarith : (0:ℚ) ≤ 180 - s2),
            sq_nonneg ((s2 - s1) / 5 - 1333/2646),
            mul_nonneg (sub_nonneg.mpr hs12) (by linarith : (0:ℚ) ≤ s1 - 75)]
        nlinarith [mul_le_mul_of_nonneg_left hq hU.le]
    · rw [if_neg c2b]
      by_cases c1a : s1 < 75
      · rw [if_pos c1a]
        have h0A : (0:ℚ) ≤ (-1852/1000000) * (s1 / 5 + 1) * (s1 / 5 + 1)
            + (1852/1000000) * (s1 / 5 + 1) + 1 := by
          nlinarith [mul_nonneg (by linarith : (0:ℚ) ≤ 75 - s1) hs10]
        nlinarith [mul_nonneg hU.le h0A]
      · by_cases c1b : s1 < 180
        · rw [if_neg c1a, if_pos c1b]
          have hlb2 : (-226/1000000 : ℚ) ≤
              (1323/1000000) * ((s1 - 75) / 5) * ((s1 - 75) / 5)
                + (-54233/1000000) * ((s1 - 75) / 5) + 555560/1000000 := by
            nlinarith [sq_nonneg ((s1 - 75) / 5 - 54233/2646)]
          nlinarith [mul_le_mul_of_nonneg_left hlb2 hU.le]
        · rw [if_neg c1a, if_neg c1b]
          linarith

set_option maxHeartbeats 1000000 in
/-- The exponential curve returns the full dose at time zero, exactly zero
at and beyond the end of action, and a non-increasing IOB on the whole
action interval, whenever the peak time is positive and at most a quarter
of the action duration (satisfied by the shipped peaks 55/75 min with the
enforced 5 h minimum DIA). -/
theorem ExponentialCurve_iob_properties (U dia peak : ℝ) (hU : 0 ≤ U)
    (hpk : 0 < peak) (hp4 : 4 * peak ≤ max dia 5 * 60) :
    (ExponentialCurve_calculate U 0 dia peak).1 = U ∧
    (∀ m : ℝ, max dia 5 * 60 ≤ m →
      ExponentialCurve_calculate U m dia peak = (0, 0)) ∧
    AntitoneOn (fun m => (ExponentialCurve_calculate U m dia peak).1)
      (Set.Icc 0 (max dia 5 * 60)) := by
  set te := max dia 5 * 60 with hte_def
  have hte300 : (300:ℝ) ≤ te := by
    rw [hte_def]
    nlinarith [le_max_right dia (5:ℝ)]
  have hte0 : (0:ℝ) < te := by linarith
  have h2p : 2 * peak < te := by linarith
  set tau := peak * (1 - peak / te) / (1 - 2 * peak / te) with htau_def
  have hden : (0:ℝ) < 1 - 2 * peak / te := by
    have : 2 * peak / te < 1 := (div_lt_one hte0).mpr h2p
    linarith
  have hpk_te : peak < te := by linarith
  have htau : 0 < tau := by
    apply div_pos _ hden
    apply mul_pos hpk
    have : peak / te < 1 := (div_lt_one hte0).mpr hpk_te
    linarith
  have hp2 : (0:ℝ) < te - 2 * peak := by linarith
  have htau_eq : tau = peak * (te - peak) / (te - 2 * peak) := by
    rw [htau_def, div_eq_div_iff (ne_of_gt hden) (ne_of_gt hp2)]
    field_simp
  have h2tau : 2 * tau < te := by
    rw [htau_eq, ← mul_div_assoc, div_lt_iff hp2]
    nlinarith [mul_pos hpk hpk, mul_le_mul_of_nonneg_right hp4 hte0.le]
  set a := 2 * tau / te with ha_def
  have ha0 : 0 < a := by
    rw [ha_def]
    positivity
  have ha1 : a < 1 := by
    rw [ha_def]
    exact (div_lt_one hte0).mpr h2tau
  have h1a : (0:ℝ) < 1 - a := by linarith
  set X := tau * te * (1 - a) with hX_def
  have hX : 0 < X := by
    rw [hX_def]
    exact mul_pos (mul_pos htau hte0) h1a
  have hXrel : X = tau * (te - 2 * tau) := by
    rw [hX_def, ha_def]
    field_simp
    ring
  have hX2 : (0:ℝ) < te - 2 * tau := by linarith
  set E := Real.exp (-te / tau) with hE_def
  have hE : 0 < E := Real.exp_pos _
  set s := 1 / (1 - a + (1 + a) * E) with hs_def
  have hsden : 0 < 1 - a + (1 + a) * E := by nlinarith
  have hs : 0 < s := by
    rw [hs_def]
    positivity
  have hval : ∀ m : ℝ, ¬ te ≤ m →
      (ExponentialCurve_calculate U m dia peak).1 =
        U * (1 - s * (1 - a) *
          ((m * m / X - m / tau - 1) * Real.exp (-m / tau) + 1)) := by
    intro m hm
    simp only [ExponentialCurve_calculate]
    rw [← hte_def, ← htau_def, ← ha_def, ← hE_def, ← hs_def, ← hX_def,
      if_neg hm]
  have hzero : ∀ m : ℝ, te ≤ m →
      ExponentialCurve_calculate U m dia peak = (0, 0) := by
    intro m hm
    simp only [ExponentialCurve_calculate]
    rw [← hte_def, if_pos hm]
  have hg : ∀ x : ℝ, HasDerivAt
      (fun y => (y * y / X - y / tau - 1) * Real.exp (-y / tau) + 1)
      ((2 * x / X - 1 / tau) * Real.exp (-x / tau) +
        (x * x / X - x / tau - 1) * (Real.exp (-x / tau) * (-1 / tau))) x := by
    intro x
    have h1 : HasDerivAt (fun y : ℝ => y * y / X - y / tau - 1)
        (2 * x / X - 1 / tau) x := by
      have h := ((((hasDerivAt_id x).mul (hasDerivAt_id x)).div_const X).sub
        ((hasDerivAt_id x).div_const tau)).sub_const 1
      simp only [id_eq] at h
      have he : (1 * x + x * 1) / X - 1 / tau = 2 * x / X - 1 / tau := by
        ring
      rw [he] at h
      exact h
    have h2 : HasDerivAt (fun y : ℝ => Real.exp (-y / tau))
        (Real.exp (-x / tau) * (-1 / tau)) x := by
      have h0 : HasDerivAt (fun y : ℝ => -y / tau) (-1 / tau) x :=
        (hasDerivAt_id x).neg.div_const tau
      exact h0.exp
    exact (h1.mul h2).add_const 1
  have hmono : MonotoneOn
      (fun m : ℝ => (m * m / X - m / tau - 1) * Real.exp (-m / tau) + 1)
      (Set.Icc 0 te) := by
    refine monotoneOn_of_hasDerivWithinAt_nonneg (convex_Icc 0 te)
      (fun x _ => (hg x).continuousAt.continuousWithinAt)
      (fun x _ => (hg x).hasDerivWithinAt) ?_
    intro x hx
    rw [interior_Icc] at hx
    obtain ⟨hx0, hxte⟩ := hx
    have hA : (2 * x / X - 1 / tau) + (x * x / X - x / tau - 1) * (-1 / tau) =
        x * (te - x) / (X * tau) := by
      rw [hXrel]
      field_simp
      ring
    have hfactor : (2 * x / X - 1 / tau) * Real.exp (-x / tau) +
        (x * x / X - x / tau - 1) * (Real.exp (-x / tau) * (-1 / tau)) =
        Real.exp (-x / tau) *
          ((2 * x / X - 1 / tau) + (x * x / X - x / tau - 1) * (-1 / tau)) := by
      ring
    rw [hfactor, hA]
    exact mul_nonneg (Real.exp_pos _).le
      (div_nonneg (mul_nonneg hx0.le (by linarith)) (mul_pos hX htau).le)
  have hDn : (1 - a) * ((te * te / X - te / tau - 1) * E + 1) =
      1 - a + (1 + a) * E := by
    rw [hXrel, ha_def]
    field_simp
    ring
  have hsg : s * (1 - a) * ((te * te / X - te / tau - 1) * E + 1) = 1 := by
    rw [mul_assoc, hDn, hs_def, one_div]
    exact inv_mul_cancel₀ (ne_of_gt hsden)
  have hK : 0 ≤ s * (1 - a) := mul_nonneg hs.le h1a.le
  refine ⟨?_, hzero, ?_⟩
  · rw [hval 0 (not_le.mpr hte0)]
    have hg0 : ((0:ℝ) * 0 / X - 0 / tau - 1) * Real.exp (-0 / tau) + 1 = 0 := by
      norm_num
    rw [hg0]
    ring
  · intro x hx y hy hxy
    show (ExponentialCurve_calculate U y dia peak).1 ≤
      (ExponentialCurve_calculate U x dia peak).1
    by_cases hyte : te ≤ y
    · have h1 : (ExponentialCurve_calculate U y dia peak).1 = 0 := by
        rw [hzero y hyte]
      rw [h1]
      by_cases hxte : te ≤ x
      · have h2 : (ExponentialCurve_calculate U x dia peak).1 = 0 := by
          rw [hzero x hxte]
        rw [h2]
      · rw [hval x hxte]
        have hgx : (x * x / X - x / tau - 1) * Real.exp (-x / tau) + 1 ≤
            (te * te / X - te / tau - 1) * Real.exp (-te / tau) + 1 :=
          hmono hx (Set.mem_Icc.mpr ⟨hte0.le, le_refl te⟩) hx.2
        rw [← hE_def] at hgx
        have h3 := mul_le_mul_of_nonneg_left hgx hK
        apply mul_nonneg hU
        nlinarith [h3, hsg]
    · push_neg at hyte
      have hxlt : x < te := lt_of_le_of_lt hxy hyte
      rw [hval y (not_le.mpr hyte), hval x (not_le.mpr hxlt)]
      have hgxy : (x * x / X - x / tau - 1) * Real.exp (-x / tau) + 1 ≤
          (y * y / X - y / tau - 1) * Real.exp (-y / tau) + 1 :=
        hmono hx hy hxy
      have h3 := mul_le_mul_of_nonneg_left hgxy hK
      exact mul_le_mul_of_nonneg_left (by linarith) hU

/-- Counterexample to C4 as stated: the bilinear IOB polynomial is not
monotonically non-increasing on [0, dia·60] — with U = 1 and the minimum
DIA of 3 h, the IOB at 177.5 min (−0.00022575) is strictly below the IOB
at 179 min (−0.00010368): the second quadratic turns upward after its
vertex at 177.48 min. -/
theorem bilinear_iob_not_monotone :
    (0:ℚ) ≤ 355/2 ∧ (355/2 : ℚ) ≤ 179 ∧ (179:ℚ) ≤ max (3:ℚ) 3 * 60 ∧
    (BilinearCurve_calculate 1 (355/2) 3).iob_contrib <
      (BilinearCurve_calculate 1 179 3).iob_contrib := by
  refine ⟨by norm_num, by norm_num, by norm_num, ?_⟩
  norm_num [BilinearCurve_calculate]

/-- C4 (amended): for a single bolus `U > 0` at time zero under the
source's curves: the bilinear IOB starts at exactly `U`, is exactly zero
from the (DIA-scaled) end of action on, and is non-increasing only up to a
`U/1000` tolerance (it genuinely rises by about `U/8000` near the end);
the exponential IOB (for positive peak at most a quarter of the action
duration, which covers the shipped 55/75-min peaks with the enforced 5 h
minimum DIA) starts at exactly `U`, is exactly zero from the end of action
on, and is genuinely non-increasing on the whole action interval. -/
theorem insulin_curve_iob_properties :
    (∀ U dia : ℚ, (BilinearCurve_calculate U 0 dia).iob_contrib = U) ∧
    (∀ U dia m : ℚ, max dia 3 * 60 ≤ m →
      (BilinearCurve_calculate U m dia).iob_contrib = 0) ∧
    (∀ U dia m1 m2 : ℚ, 0 < U → 0 ≤ m1 → m1 ≤ m2 → m2 ≤ max dia 3 * 60 →
      (BilinearCurve_calculate U m2 dia).iob_contrib ≤
        (BilinearCurve_calculate U m1 dia).iob_contrib + U / 1000) ∧
    (∀ U dia peak : ℝ, 0 ≤ U → 0 < peak → 4 * peak ≤ max dia 5 * 60 →
      (ExponentialCurve_calculate U 0 dia peak).1 = U ∧
      (∀ m : ℝ, max dia 5 * 60 ≤ m →
        ExponentialCurve_calculate U m dia peak = (0, 0)) ∧
      AntitoneOn (fun m => (ExponentialCurve_calculate U m dia peak).1)
        (Set.Icc 0 (max dia 5 * 60))) :=
  ⟨BilinearCurve_iob_at_zero,
   BilinearCurve_iob_after_end,
   BilinearCurve_iob_quasi_mono,
   ExponentialCurve_iob_properties⟩

/-- Witness for the amended C4 theorem: a 5 U bilinear bolus with DIA 3
and a 2 U exponential bolus with DIA 6 and peak 75. -/
theorem insulin_curve_iob_properties_witness :
    (BilinearCurve_calculate 5 0 3).iob_contrib = 5 ∧
    (BilinearCurve_calculate 5 200 3).iob_contrib = 0 ∧
    (BilinearCurve_calculate 5 100 3).iob_contrib ≤
      (BilinearCurve_calculate 5 50 3).iob_contrib + 5 / 1000 ∧
    (ExponentialCurve_calculate 2 0 6 75).1 = 2 ∧
    ExponentialCurve_calculate 2 400 6 75 = (0, 0) := by
  have h := insulin_curve_iob_properties
  have hexp := h.2.2.2 2 6 75 (by norm_num) (by norm_num)
    (by rw [show max (6:ℝ) 5 = 6 from by norm_num]; norm_num)
  refine ⟨h.1 5 3, ?_, ?_, hexp.1, ?_⟩
  · exact h.2.1 5 3 200 (by rw [show max (3:ℚ) 3 = 3 from by norm_num]; norm_num)
  · exact h.2.2.1 5 3 50 100 (by norm_num) (by norm_num) (by norm_num)
      (by rw [show max (3:ℚ) 3 = 3 from by norm_num]; norm_num)
  · exact hexp.2.1 400 (by rw [show max (6:ℝ) 5 = 6 from by norm_num]; norm_num)

/-- Counterexample to C6 as stated: a single 1 g carb entry with six flat
glucose readings makes the deviation floor `min_5m_carbimpact` dominate
every 5-minute interval, so `carbs_absorbed` grows to 4.8 g and
`meal_cob + carbs_absorbed = 4.8 > 1` — the total carbs entered since the
inferred meal time. -/
theorem cob_absorbed_exceeds_total_carbs :
    find_meal_time carbsC6 1800000 profC6.max_meal_absorption_time = some 0 ∧
    (cob_calculate expc0 profC6 glucoseC6 carbsC6 1800000).meal_cob = 0 ∧
    (cob_calculate expc0 profC6 glucoseC6 carbsC6 1800000).carbs_absorbed =
      24/5 ∧
    calculate_total_carbs carbsC6 0 1800000 = 1 ∧
    ¬ ((cob_calculate expc0 profC6 glucoseC6 carbsC6 1800000).meal_cob +
        (cob_calculate expc0 profC6 glucoseC6 carbsC6 1800000).carbs_absorbed ≤
          calculate_total_carbs carbsC6 0 1800000) := by
  have hmeal : find_meal_time carbsC6 1800000 profC6.max_meal_absorption_time
      = some 0 := by
    norm_num [find_meal_time, carbsC6, profC6, ratTrunc,
      Treatment.effective_date, List.filter_cons, List.filter_nil,
      List.foldl_cons, List.foldl_nil]
  have htotal : calculate_total_carbs carbsC6 0 1800000 = 1 := by
    norm_num [calculate_total_carbs, carbsC6, Treatment.effective_date,
      List.filter_cons, List.filter_nil, List.filterMap_cons,
      List.filterMap_nil, List.foldr_cons, List.foldr_nil]
  have hisf : ∀ t : ℤ, isf_lookup profC6 t = 50 := by
    intro t
    norm_num [isf_lookup, isf_lookup_from_schedule, profC6]
  have hact : ∀ t : ℤ, (cob_calculate_iob_at_time expc0 profC6 carbsC6 t).activity
      = 0 := by
    intro t
    have hstep : ∀ acc : ℚ × ℚ, iobAtTimeStep expc0 profC6 t
        (ratTrunc (profC6.dia * 3600000)) acc
        { date := 0, carbs := some 1 } = acc := by
      intro acc
      simp only [iobAtTimeStep, Treatment.effective_date, Option.getD_none]
      split
      · rfl
      · rw [if_pos (le_refl (0:ℚ))]
    simp only [cob_calculate_iob_at_time, carbsC6, List.foldl_cons,
      List.foldl_nil, hstep]
  have hbuck : bucket_glucose_data glucoseC6 0 6 =
      [⟨300000, 100⟩, ⟨600000, 100⟩, ⟨900000, 100⟩,
       ⟨1200000, 100⟩, ⟨1500000, 100⟩, ⟨1800000, 100⟩] := by
    rw [bucket_glucose_data_regular glucoseC6 0 6
      (by intro r hr; fin_cases hr <;> norm_num [glucoseC6])
      (by intro r hr; fin_cases hr <;> norm_num [glucoseC6])
      (by norm_num [glucoseC6])]
    norm_num [glucoseC6]
  have hmaxH : profC6.max_meal_absorption_time = 6 := rfl
  have hp1 : profC6.min_5m_carbimpact = 8 := rfl
  have hp2 : profC6.carb_ratio = 10 := rfl
  have hs1 : cobStep expc0 profC6 carbsC6 0 1800000 0 {}
      ⟨300000, 100⟩ ⟨600000, 100⟩ ⟨1200000, 100⟩ =
      { carbs_absorbed := 8/5, current_deviation := 0, max_deviation := 0,
        min_deviation := 999, slope_from_max_deviation := 0,
        slope_from_min_deviation := 999, all_deviations := [0] } := by
    norm_num [cobStep, hisf, hact, round_to_decimal, rustRound, max_def,
      min_def, hp1, hp2]
  have hs2 : cobStep expc0 profC6 carbsC6 0 1800000 1
      { carbs_absorbed := 8/5, current_deviation := 0, max_deviation := 0,
        min_deviation := 999, slope_from_max_deviation := 0,
        slope_from_min_deviation := 999, all_deviations := [0] }
      ⟨600000, 100⟩ ⟨900000, 100⟩ ⟨1500000, 100⟩ =
      { carbs_absorbed := 16/5, current_deviation := 0, max_deviation := 0,
        min_deviation := 0, slope_from_max_deviation := 0,
        slope_from_min_deviation := 0, all_deviations := [0, 0] } := by
    norm_num [cobStep, hisf, hact, round_to_decimal, rustRound, max_def,
      min_def, hp1, hp2]
  have hs3 : cobStep expc0 profC6 carbsC6 0 1800000 2
      { carbs_absorbed := 16/5, current_deviation := 0, max_deviation := 0,
        min_deviation := 0, slope_from_max_deviation := 0,
        slope_from_min_deviation := 0, all_deviations := [0, 0] }
      ⟨900000, 100⟩ ⟨1200000, 100⟩ ⟨1800000, 100⟩ =
      { carbs_absorbed := 24/5, current_deviation := 0, max_deviation := 0,
        min_deviation := 0, slope_from_max_deviation := 0,
        slope_from_min_deviation := 0, all_deviations := [0, 0, 0] } := by
    norm_num [cobStep, hisf, hact, round_to_decimal, rustRound, max_def,
      min_def, hp1, hp2]
  have hloop : cobLoop expc0 profC6 carbsC6 0 1800000 0 {}
      [⟨300000, 100⟩, ⟨600000, 100⟩, ⟨900000, 100⟩,
       ⟨1200000, 100⟩, ⟨1500000, 100⟩, ⟨1800000, 100⟩] =
      { carbs_absorbed := 24/5, current_deviation := 0, max_deviation := 0,
        min_deviation := 0, slope_from_max_deviation := 0,
        slope_from_min_deviation := 0, all_deviations := [0, 0, 0] } := by
    simp only [cobLoop]
    norm_num [hs1, hs2, hs3]
  have habs : detect_carb_absorption_internal expc0 profC6 glucoseC6 carbsC6
      0 1800000 =
      { carbs_absorbed := 24/5, current_deviation := 0,
        max_deviation := 0, min_deviation := 0,
        slope_from_max_deviation := 0, slope_from_min_deviation := 0,
        all_deviations := [0, 0, 0] } := by
    have hne : glucoseC6 ≠ [] := by
      intro h
      simp only [glucoseC6] at h
      exact List.noConfusion h
    cases hgd : glucoseC6 with
    | nil => exact absurd hgd hne
    | cons g grest =>
      simp only [detect_carb_absorption_internal]
      rw [← hgd, hmaxH, hbuck]
      rw [if_neg (by norm_num), hloop]
  have hcalc : cob_calculate expc0 profC6 glucoseC6 carbsC6 1800000 =
      { meal_cob := 0, carbs_absorbed := 24/5, current_deviation := 0,
        max_deviation := 0, min_deviation := 0, slope_from_max := 0,
        slope_from_min := 0 } := by
    simp only [cob_calculate, hmeal, habs, htotal]
    norm_num
  refine ⟨hmeal, ?_, ?_, htotal, ?_⟩
  · rw [hcalc]
  · rw [hcalc]
  · rw [hcalc, htotal]
    norm_num

/-- `calculate_ratio_from_deviations` under the default clamp bounds
0.7/1.2: the result lies in [0.7, 1.2] and is an integer multiple of
0.01. -/
theorem calculate_ratio_bounds (devs : List ℚ) (p : Profile)
    (cfg : AutosensConfig)
    (hmin : cfg.autosens_min = 7/10) (hmax : cfg.autosens_max = 12/10) :
    7/10 ≤ calculate_ratio_from_deviations devs p cfg ∧
    calculate_ratio_from_deviations devs p cfg ≤ 12/10 ∧
    ∃ k : ℤ, calculate_ratio_from_deviations devs p cfg = (k : ℚ) / 100 := by
  cases devs with
  | nil =>
    have h : calculate_ratio_from_deviations [] p cfg = 1 := rfl
    rw [h]
    exact ⟨by norm_num, by norm_num, 100, by norm_num⟩
  | cons d ds =>
    have hdef : calculate_ratio_from_deviations (d :: ds) p cfg =
        (rustRound ((min (max (1 + percentile (sortByRat (fun x => x) (d :: ds))
              (1/2) * (60 / 5) / p.sens / p.max_basal) cfg.autosens_min)
            cfg.autosens_max) * 100) : ℚ) / 100 := rfl
    rw [hdef, hmin, hmax]
    set raw := 1 + percentile (sortByRat (fun x => x) (d :: ds)) (1/2) *
      (60 / 5) / p.sens / p.max_basal with hraw
    set ratio := min (max raw (7/10)) (12/10) with hratio
    have h1 : 7/10 ≤ ratio := le_min (le_max_right _ _) (by norm_num)
    have h2 : ratio ≤ 12/10 := min_le_right _ _
    have hlo : (70:ℤ) ≤ rustRound (ratio * 100) := by
      have hr := le_rustRound (ratio * 100)
      by_contra hlt
      push_neg at hlt
      have : ((rustRound (ratio * 100) : ℤ) : ℚ) ≤ 69 := by
        exact_mod_cast (by omega : rustRound (ratio * 100) ≤ 69)
      linarith
    have hhi : rustRound (ratio * 100) ≤ 120 := by
      have hr := rustRound_le (ratio * 100)
      by_contra hlt
      push_neg at hlt
      have : (121:ℚ) ≤ ((rustRound (ratio * 100) : ℤ) : ℚ) := by
        exact_mod_cast (by omega : (121:ℤ) ≤ rustRound (ratio * 100))
      linarith
    have hloq : (70:ℚ) ≤ (rustRound (ratio * 100) : ℚ) := by exact_mod_cast hlo
    have hhiq : ((rustRound (ratio * 100) : ℤ) : ℚ) ≤ 120 := by exact_mod_cast hhi
    exact ⟨by linarith, by linarith, rustRound (ratio * 100), rfl⟩

/-- C7: for every profile, glucose history and treatment list,
`detect_sensitivity` (default configuration: clamp bounds 0.7/1.2) returns
a ratio in [0.7, 1.2] that is an integer multiple of 0.01, and returns
exactly 1 when there are no glucose readings, when fewer than 4 bucketed
samples remain, and when the deviation list comes back empty. -/
theorem detect_sensitivity_ratio_bounds (expc : ExpCurveFn) (p : Profile)
    (gd : List GlucoseReading) (ts : List Treatment) (clock : ℤ) :
    (7/10 ≤ (detect_sensitivity expc p gd ts clock).ratio ∧
     (detect_sensitivity expc p gd ts clock).ratio ≤ 12/10) ∧
    (∃ k : ℤ, (detect_sensitivity expc p gd ts clock).ratio = (k : ℚ) / 100) ∧
    (gd = [] → (detect_sensitivity expc p gd ts clock).ratio = 1) ∧
    (∀ g0 grest, gd = g0 :: grest →
      (bucket_glucose_data_for_autosens gd
        (autosens_window_start p ts g0.date clock {})).length < 4 →
      (detect_sensitivity expc p gd ts clock).ratio = 1) := by
  cases gd with
  | nil =>
    have h : (detect_sensitivity expc p [] ts clock).ratio = 1 := rfl
    rw [h]
    refine ⟨⟨by norm_num, by norm_num⟩, ⟨100, by norm_num⟩, fun _ => rfl,
      fun g0 grest hh _ => ?_⟩
    exact absurd hh (by simp)
  | cons g0 grest =>
    simp only [detect_sensitivity, detect_sensitivity_with_config]
    by_cases hb : (bucket_glucose_data_for_autosens (g0 :: grest)
        (autosens_window_start p ts g0.date clock {})).length < 4
    · rw [if_pos hb]
      refine ⟨⟨by norm_num, by norm_num⟩, ⟨100, by norm_num⟩,
        fun h => absurd h (by simp), fun g0' grest' heq _ => rfl⟩
    · rw [if_neg hb]
      cases hdev : calculate_deviations expc p
          (bucket_glucose_data_for_autosens (g0 :: grest)
            (autosens_window_start p ts g0.date clock {})) ts
          (find_meal_treatments ts
            (bucket_glucose_data_for_autosens (g0 :: grest)
              (autosens_window_start p ts g0.date clock {}))) [] {} with
      | nil =>
        refine ⟨⟨by norm_num, by norm_num⟩, ⟨100, by norm_num⟩,
          fun h => absurd h (by simp), fun g0' grest' heq hlen => ?_⟩
        · injection heq with h1 h2
          subst h1; subst h2
          exact absurd hlen hb
      | cons d0 drest =>
        have hr := calculate_ratio_bounds (d0 :: drest) p {} rfl rfl
        refine ⟨⟨hr.1, hr.2.1⟩, hr.2.2,
          fun h => absurd h (by simp), fun g0' grest' heq hlen => ?_⟩
        injection heq with h1 h2
        subst h1; subst h2
        exact absurd hlen hb

/-- Witness for C7 at an empty glucose history and at the counterexample
profile: the ratio is exactly 1 and in bounds. -/
theorem detect_sensitivity_ratio_bounds_witness :
    (detect_sensitivity expc0 profC6 [] carbsC6 0).ratio = 1 ∧
    7/10 ≤ (detect_sensitivity expc0 profC6 [] carbsC6 0).ratio ∧
    (detect_sensitivity expc0 profC6 [] carbsC6 0).ratio ≤ 12/10 := by
  have h := detect_sensitivity_ratio_bounds expc0 profC6 [] carbsC6 0
  exact ⟨h.2.2.1 rfl, h.1.1, h.1.2⟩

/-- C6 (amended): under the claim's preconditions (nonnegative
`min_5m_carbimpact`, positive `carb_ratio`, positive scalar and scheduled
sensitivities), every `cob::calculate` result has `meal_cob ≥ 0` and
`meal_cob` itself (not `meal_cob + carbs_absorbed`) bounded by the total
carbs entered since the inferred meal time; and if no carb entry of at
least 1 g lies within the absorption window the result is all zeros.
`carbs_absorbed` is an unclamped deviation integral and can exceed the
entered carbs. -/
theorem cob_calculate_invariants (expc : ExpCurveFn) (p : Profile)
    (gd : List GlucoseReading) (ts : List Treatment) (clock : ℤ)
    (h5 : 0 ≤ p.min_5m_carbimpact) (hcr : 0 < p.carb_ratio)
    (hs : 0 < p.sens)
    (hall : ∀ e ∈ p.isf_profile.sensitivities, 0 < e.sensitivity) :
    0 ≤ (cob_calculate expc p gd ts clock).meal_cob ∧
    (∀ m, find_meal_time ts clock p.max_meal_absorption_time = some m →
      (cob_calculate expc p gd ts clock).meal_cob ≤
        calculate_total_carbs ts m clock) ∧
    (find_meal_time ts clock p.max_meal_absorption_time = none →
      cob_calculate expc p gd ts clock = {}) := by
  cases hm : find_meal_time ts clock p.max_meal_absorption_time with
  | none =>
    refine ⟨?_, ?_, ?_⟩
    · simp [cob_calculate, hm]
    · intro m hmm
      exact absurd hmm (by simp)
    · intro _
      simp [cob_calculate, hm]
  | some meal =>
    have habs := detect_carb_absorption_internal_nonneg expc p gd ts meal clock
      h5 hcr hs hall
    refine ⟨?_, ?_, ?_⟩
    · simp only [cob_calculate, hm]
      exact le_max_right _ _
    · intro m hmm
      injection hmm with hmm'
      subst hmm'
      simp only [cob_calculate, hm]
      refine max_le ?_ (calculate_total_carbs_nonneg ts meal clock)
      linarith
    · intro hc
      exact absurd hc (by simp)

/-- Witness for the amended C6 theorem at the counterexample inputs. -/
theorem cob_calculate_invariants_witness :
    0 ≤ (cob_calculate expc0 profC6 glucoseC6 carbsC6 1800000).meal_cob ∧
    (∀ m, find_meal_time carbsC6 1800000 profC6.max_meal_absorption_time
        = some m →
      (cob_calculate expc0 profC6 glucoseC6 carbsC6 1800000).meal_cob ≤
        calculate_total_carbs carbsC6 m 1800000) ∧
    (find_meal_time carbsC6 1800000 profC6.max_meal_absorption_time = none →
      cob_calculate expc0 profC6 glucoseC6 carbsC6 1800000 = {}) :=
  cob_calculate_invariants expc0 profC6 glucoseC6 carbsC6 1800000
    (by norm_num [profC6]) (by norm_num [profC6]) (by norm_num [profC6])
    (by intro e he; simp [profC6] at he)

end Oref
